import Mathlib

/-!
# Tensor value type and execution session of `src/interpreter/tf_operations.cpp`

The translation unit is compiled in one of two configurations, chosen by the
preprocessor switch `TENSORFLOW_ENABLED`.  Each configuration is embedded as
its own program:

* `JInterpreter.Fallback` : the `#else` branches (flat typed buffers, stub
  operations);
* `JInterpreter.Native`   : the `#ifdef TENSORFLOW_ENABLED` branches (storage and
  arithmetic through `tensorflow::Tensor`).

Conventions of the embedding.

* `long long` is an `Int` in `[-2^63, 2^63)`, arithmetic on it wraps
  (`wrap_int64`); `size_t` is a `Nat` below `2^64`, arithmetic on it is taken
  modulo `2^64`; `int` is an `Int` in `[-2^31, 2^31)`.
* `std::vector<T>` is `List T`; `double` is `Float`.
* `std::shared_ptr<JTensor>` is `Option JTensor`, `none` being the null pointer.
  A function whose result can never be null returns a `JTensor`.
* A call that does not return normally yields a `Fault`; functions whose body
  contains no such operation are plain total functions.  `assert` is taken as
  enabled.
* Text written to `std::cout` / `std::cerr` is not part of the model, and
  memory is unbounded.
-/

namespace JInterpreter

/-- The ways in which a call can fail to return a value. -/
inductive Fault where
  /-- An `assert(...)` was violated. -/
  | assertion_failed
  /-- A `std::runtime_error` was thrown. -/
  | runtime_error
  /-- A null `shared_ptr` was dereferenced. -/
  | null_dereference
  /-- A signed machine integer was incremented past its largest value. -/
  | signed_overflow
  /-- An element access fell outside its buffer. -/
  | out_of_bounds
  /-- A fatal `CHECK` of the tensor library was violated. -/
  | check_failed
  deriving DecidableEq, Repr

/-- The enumeration `JTensor::DataType`. -/
inductive DataType where
  | FLOAT64
  | INT64
  | STRING
  | UNKNOWN
  deriving DecidableEq, Repr

/-- Largest value of `long long`. -/
def LLONG_MAX : Int := 9223372036854775807

/-- Largest value of `int`. -/
def INT_MAX : Int := 2147483647

/-- The value is representable as a `long long`. -/
def is_int64 (x : Int) : Prop := -9223372036854775808 ≤ x ∧ x ≤ LLONG_MAX

instance (x : Int) : Decidable (is_int64 x) := by
  unfold is_int64; exact inferInstance

/-- Reduction of a mathematical integer to the `long long` with the same low 64 bits. -/
def wrap_int64 (x : Int) : Int :=
  (x + 9223372036854775808) % 18446744073709551616 - 9223372036854775808

/-- Conversion of a `long long` to `size_t`. -/
def to_size_t (x : Int) : Nat := (x % 18446744073709551616).toNat

/-- Multiplication of two `size_t` values. -/
def size_t_mul (a b : Nat) : Nat := (a * b) % 18446744073709551616

/-- The running product `acc *= dim` of a `size_t` accumulator over `long long` dimensions. -/
def size_t_product (shape : List Int) : Nat :=
  shape.foldl (fun acc dim => size_t_mul acc (to_size_t dim)) 1

/-- The conversion `static_cast<long long>(double)`: truncation toward zero
(the conversion is only defined when the truncated value is representable). -/
def double_to_long_long (x : Float) : Int :=
  if x < 0 then -((Float.toUInt64 (-x)).toNat : Int) else ((Float.toUInt64 x).toNat : Int)

/-- The first block of both `init_from_data` overloads, common to the two
configurations: the value given to `m_shape` for data of `data_size` elements,
with the assertion `data.size() == expected_size`. -/
def init_shape (data_size : Nat) (shape : List Int) : Except Fault (List Int) :=
  if shape.isEmpty then
    if data_size = 1 then .ok []
    else .ok [wrap_int64 (data_size : Int)]
  else
    if data_size = size_t_product shape then .ok shape
    else .error Fault.assertion_failed

/-- The loop `for (long long i = 0; i < n; ++i) data.push_back(i)` of
`TFSession::iota`, common to the two configurations, from counter value `i` on.
The increment cannot overflow: `i < n <= LLONG_MAX`. -/
def iota_loop (n : Int) (i : Int) (data : List Int) : List Int :=
  if i < n then iota_loop n (i + 1) (data ++ [i]) else data
termination_by (n - i).toNat
decreasing_by omega

namespace Fallback

/-! ## Fallback configuration: `JTensor` -/

/-- The data members of `JTensor` when `TENSORFLOW_ENABLED` is not defined. -/
structure JTensor where
  m_shape : List Int
  m_dtype : DataType
  m_float_data : List Float
  m_int_data : List Int
  m_string_data : List String

namespace JTensor

/-- The default constructor `JTensor::JTensor()`. -/
def new : JTensor :=
  { m_shape := [], m_dtype := DataType.UNKNOWN, m_float_data := [], m_int_data := [],
    m_string_data := [] }

/-- The accessor `JTensor::shape()`. -/
def shape (self : JTensor) : List Int := self.m_shape

/-- The accessor `JTensor::rank()`. -/
def rank (self : JTensor) : Nat := self.m_shape.length

/-- The accessor `JTensor::size()`: `std::accumulate` with `1LL` and
`std::multiplies<long long>`, returned as `size_t`. -/
def size (self : JTensor) : Nat :=
  to_size_t (self.m_shape.foldl (fun acc dim => wrap_int64 (acc * dim)) 1)

/-- The accessor `JTensor::dtype()`. -/
def dtype (self : JTensor) : DataType := self.m_dtype

/-- The specialization `JTensor::get_flat<long long>()`. -/
def get_flat_long_long (self : JTensor) : Except Fault (List Int) :=
  if self.m_dtype ≠ DataType.INT64 then .error Fault.runtime_error
  else .ok self.m_int_data

/-- The specialization `JTensor::get_flat<double>()`. -/
def get_flat_double (self : JTensor) : Except Fault (List Float) :=
  if self.m_dtype ≠ DataType.FLOAT64 then .error Fault.runtime_error
  else .ok self.m_float_data

/-- The overload `JTensor::init_from_data(const std::vector<double>&, shape)`. -/
def init_from_data_double (self : JTensor) (data : List Float) (shape : List Int) :
    Except Fault JTensor :=
  let self := { self with m_dtype := DataType.FLOAT64 }
  match init_shape data.length shape with
  | .error e => .error e
  | .ok s => .ok { self with m_shape := s, m_float_data := data }

/-- The overload `JTensor::init_from_data(const std::vector<long long>&, shape)`. -/
def init_from_data_long_long (self : JTensor) (data : List Int) (shape : List Int) :
    Except Fault JTensor :=
  let self := { self with m_dtype := DataType.INT64 }
  match init_shape data.length shape with
  | .error e => .error e
  | .ok s => .ok { self with m_shape := s, m_int_data := data }

/-- The factory `JTensor::scalar(double)`. -/
def scalar_double (value : Float) : Except Fault JTensor :=
  init_from_data_double new [value] []

/-- The factory `JTensor::scalar(long long)`. -/
def scalar_long_long (value : Int) : Except Fault JTensor :=
  init_from_data_long_long new [value] []

/-- The factory `JTensor::from_data(const std::vector<double>&, shape)`. -/
def from_data_double (data : List Float) (shape : List Int) : Except Fault JTensor :=
  init_from_data_double new data shape

/-- The factory `JTensor::from_data(const std::vector<long long>&, shape)`. -/
def from_data_long_long (data : List Int) (shape : List Int) : Except Fault JTensor :=
  init_from_data_long_long new data shape

/-- The factory `JTensor::copy(const JTensor&)`. -/
def copy (other : JTensor) : JTensor :=
  let tensor := new
  let tensor := { tensor with m_shape := other.m_shape }
  let tensor := { tensor with m_dtype := other.m_dtype }
  let tensor := { tensor with m_float_data := other.m_float_data }
  let tensor := { tensor with m_int_data := other.m_int_data }
  { tensor with m_string_data := other.m_string_data }

/-- The specialization `JTensor::get_scalar<double>()`. -/
def get_scalar_double (self : JTensor) : Except Fault Float :=
  if ¬ self.m_shape.isEmpty then .error Fault.assertion_failed
  else if self.m_dtype = DataType.FLOAT64 ∧ ¬ self.m_float_data.isEmpty then
    .ok (self.m_float_data.headD 0.0)
  else if self.m_dtype = DataType.INT64 ∧ ¬ self.m_int_data.isEmpty then
    .ok (Float.ofInt (self.m_int_data.headD 0))
  else .ok 0.0

/-- The specialization `JTensor::get_scalar<long long>()`. -/
def get_scalar_long_long (self : JTensor) : Except Fault Int :=
  if ¬ self.m_shape.isEmpty then .error Fault.assertion_failed
  else if self.m_dtype = DataType.INT64 ∧ ¬ self.m_int_data.isEmpty then
    .ok (self.m_int_data.headD 0)
  else if self.m_dtype = DataType.FLOAT64 ∧ ¬ self.m_float_data.isEmpty then
    .ok (double_to_long_long (self.m_float_data.headD 0.0))
  else .ok 0

end JTensor

/-! ## Fallback configuration: `TFSession` -/

namespace TFSession

/-- The stub `TFSession::stub_binary_op`; the operation name is only printed. -/
def stub_binary_op (a b : Option JTensor) (_op_name : String) : Option JTensor :=
  match a, b with
  | some a, some _ => some (JTensor.copy a)
  | _, _ => none

/-- The fallback `TFSession::add`. -/
def add (a b : Option JTensor) : Option JTensor := stub_binary_op a b "add"

/-- The fallback `TFSession::subtract`. -/
def subtract (a b : Option JTensor) : Option JTensor := stub_binary_op a b "subtract"

/-- The fallback `TFSession::multiply`. -/
def multiply (a b : Option JTensor) : Option JTensor := stub_binary_op a b "multiply"

/-- The fallback `TFSession::divide`. -/
def divide (a b : Option JTensor) : Option JTensor := stub_binary_op a b "divide"

/-- The generator `TFSession::iota`. -/
def iota (n : Int) : Except Fault JTensor :=
  let data := iota_loop n 0 []
  JTensor.from_data_long_long data [n]

/-- The fallback `TFSession::reshape`. -/
def reshape (tensor : Option JTensor) (new_shape : List Int) : Option JTensor :=
  match tensor with
  | none => none
  | some t =>
    let current_size := t.size
    let new_size := size_t_product new_shape
    if current_size ≠ new_size then none
    else
      let result := JTensor.copy t
      some result

/-- The fallback `TFSession::transpose`; it dereferences its operand unconditionally. -/
def transpose (tensor : Option JTensor) : Except Fault JTensor :=
  match tensor with
  | none => .error Fault.null_dereference
  | some t => .ok (JTensor.copy t)

/-- The fallback `TFSession::reduce_sum`; `axes` is never read. -/
def reduce_sum (tensor : Option JTensor) (_axes : List Int) : Except Fault (Option JTensor) :=
  match tensor with
  | none => .ok none
  | some t =>
    if t.dtype = DataType.INT64 then
      match t.get_flat_long_long with
      | .error e => .error e
      | .ok flat =>
        let sum := flat.foldl (fun sum val => wrap_int64 (sum + val)) 0
        match JTensor.scalar_long_long sum with
        | .error e => .error e
        | .ok r => .ok (some r)
    else if t.dtype = DataType.FLOAT64 then
      match t.get_flat_double with
      | .error e => .error e
      | .ok flat =>
        let sum := flat.foldl (fun sum val => sum + val) 0.0
        match JTensor.scalar_double sum with
        | .error e => .error e
        | .ok r => .ok (some r)
    else .ok none

end TFSession

end Fallback

namespace Native

/-! ## The tensor library used by the native configuration

`tensorflow::Tensor` and `tensorflow::TensorShape` belong to an external
library.  They are modelled by the observable behaviour of the members this
file calls: a shape is its list of dimensions with the cached element count, a
tensor is an element type, a shape and a flat buffer.  `Tensor(dtype, shape)`
allocates `shape.num_elements()` elements, `flat<T>()` is a fatal check unless
`T` is the element type, and `AddDim` is a fatal check on a negative
dimension, on more than 254 dimensions and on an element count above
`LLONG_MAX`. -/

namespace tensorflow

/-- The element types of `tensorflow::DataType` this file distinguishes. -/
inductive DataType where
  | DT_FLOAT
  | DT_DOUBLE
  | DT_INT32
  | DT_INT64
  | DT_STRING
  | DT_INVALID
  deriving DecidableEq, Repr

/-- The class `tensorflow::TensorShape`. -/
structure TensorShape where
  dim_sizes : List Int
  num_elements : Int
  deriving DecidableEq, Repr

namespace TensorShape

/-- The default constructor: rank 0, one element. -/
def new : TensorShape := { dim_sizes := [], num_elements := 1 }

/-- The member `TensorShape::AddDim`. -/
def AddDim (self : TensorShape) (size : Int) : Except Fault TensorShape :=
  if size < 0 then .error Fault.check_failed
  else if 254 ≤ self.dim_sizes.length then .error Fault.check_failed
  else if LLONG_MAX < self.num_elements * size then .error Fault.check_failed
  else .ok { dim_sizes := self.dim_sizes ++ [size], num_elements := self.num_elements * size }

/-- The loop `for (auto dim : shape) tf_shape.AddDim(dim)`. -/
def add_dims (self : TensorShape) : List Int → Except Fault TensorShape
  | [] => .ok self
  | dim :: rest =>
    match self.AddDim dim with
    | .error e => .error e
    | .ok s => add_dims s rest

end TensorShape

/-- The class `tensorflow::Tensor`; only the buffer of the element type is meaningful. -/
structure Tensor where
  m_dtype : DataType
  m_shape : TensorShape
  m_double : List Float
  m_int64 : List Int

namespace Tensor

/-- The default constructor: a one-dimensional float tensor with no element. -/
def new : Tensor :=
  { m_dtype := DataType.DT_FLOAT, m_shape := { dim_sizes := [0], num_elements := 0 },
    m_double := [], m_int64 := [] }

/-- The constructor `Tensor(dtype, shape)`. -/
def alloc (dtype : DataType) (shape : TensorShape) : Tensor :=
  { m_dtype := dtype, m_shape := shape,
    m_double := if dtype = DataType.DT_DOUBLE then
        List.replicate shape.num_elements.toNat 0.0 else [],
    m_int64 := if dtype = DataType.DT_INT64 then
        List.replicate shape.num_elements.toNat 0 else [] }

/-- The accessor `Tensor::dtype()`. -/
def dtype (self : Tensor) : DataType := self.m_dtype

/-- The accessor `Tensor::shape()`. -/
def shape (self : Tensor) : TensorShape := self.m_shape

/-- The view `Tensor::flat<double>()`. -/
def flat_double (self : Tensor) : Except Fault (List Float) :=
  if self.m_dtype = DataType.DT_DOUBLE then .ok self.m_double else .error Fault.check_failed

/-- The view `Tensor::flat<tensorflow::int64>()`. -/
def flat_int64 (self : Tensor) : Except Fault (List Int) :=
  if self.m_dtype = DataType.DT_INT64 then .ok self.m_int64 else .error Fault.check_failed

end Tensor

end tensorflow

/-! ## Native configuration: `JTensor` -/

/-- The data members of `JTensor` when `TENSORFLOW_ENABLED` is defined. -/
structure JTensor where
  m_shape : List Int
  m_dtype : DataType
  m_float_data : List Float
  m_int_data : List Int
  m_string_data : List String
  m_tf_tensor : tensorflow.Tensor
  m_has_tf_tensor : Bool

namespace JTensor

/-- The default constructor `JTensor::JTensor()`. -/
def new : JTensor :=
  { m_shape := [], m_dtype := DataType.UNKNOWN, m_float_data := [], m_int_data := [],
    m_string_data := [], m_tf_tensor := tensorflow.Tensor.new, m_has_tf_tensor := false }

/-- The constructor `JTensor::JTensor(tensorflow::Tensor)`. -/
def of_tf_tensor (tf_tensor : tensorflow.Tensor) : JTensor :=
  { m_shape := tf_tensor.shape.dim_sizes,
    m_dtype :=
      match tf_tensor.dtype with
      | tensorflow.DataType.DT_DOUBLE => DataType.FLOAT64
      | tensorflow.DataType.DT_FLOAT => DataType.FLOAT64
      | tensorflow.DataType.DT_INT64 => DataType.INT64
      | tensorflow.DataType.DT_INT32 => DataType.INT64
      | tensorflow.DataType.DT_STRING => DataType.STRING
      | tensorflow.DataType.DT_INVALID => DataType.UNKNOWN,
    m_float_data := [], m_int_data := [], m_string_data := [],
    m_tf_tensor := tf_tensor, m_has_tf_tensor := true }

/-- The accessor `JTensor::shape()`. -/
def shape (self : JTensor) : List Int := self.m_shape

/-- The accessor `JTensor::rank()`. -/
def rank (self : JTensor) : Nat := self.m_shape.length

/-- The accessor `JTensor::size()`. -/
def size (self : JTensor) : Nat :=
  to_size_t (self.m_shape.foldl (fun acc dim => wrap_int64 (acc * dim)) 1)

/-- The accessor `JTensor::dtype()`. -/
def dtype (self : JTensor) : DataType := self.m_dtype

/-- Modelled from the spec: the accessor `get_tf_tensor()` is defined in the
header `tf_operations.hpp`, which is not among the sources; it hands out the
native array object that is the storage of the tensor. -/
def get_tf_tensor (self : JTensor) : tensorflow.Tensor := self.m_tf_tensor

/-- The loop `for (size_t i = 0; i < data.size(); ++i) flat(i) = data[i]`, from
counter value `i` on. -/
def fill_loop {α : Type} (data : List α) (i : Nat) (flat : List α) : Except Fault (List α) :=
  if h : i < data.length then
    if i < flat.length then fill_loop data (i + 1) (flat.set i (data.get ⟨i, h⟩))
    else .error Fault.out_of_bounds
  else .ok flat
termination_by data.length - i

/-- The specialization `JTensor::get_flat<long long>()`. -/
def get_flat_long_long (self : JTensor) : Except Fault (List Int) :=
  if self.m_dtype ≠ DataType.INT64 then .error Fault.runtime_error
  else if ¬ self.m_has_tf_tensor then .ok []
  else self.m_tf_tensor.flat_int64

/-- The specialization `JTensor::get_flat<double>()`. -/
def get_flat_double (self : JTensor) : Except Fault (List Float) :=
  if self.m_dtype ≠ DataType.FLOAT64 then .error Fault.runtime_error
  else if ¬ self.m_has_tf_tensor then .ok []
  else self.m_tf_tensor.flat_double

/-- The overload `JTensor::init_from_data(const std::vector<double>&, shape)`. -/
def init_from_data_double (self : JTensor) (data : List Float) (shape : List Int) :
    Except Fault JTensor :=
  let self := { self with m_dtype := DataType.FLOAT64 }
  match init_shape data.length shape with
  | .error e => .error e
  | .ok s =>
    let self := { self with m_shape := s }
    match tensorflow.TensorShape.new.add_dims self.m_shape with
    | .error e => .error e
    | .ok tf_shape =>
      let tf_tensor := tensorflow.Tensor.alloc tensorflow.DataType.DT_DOUBLE tf_shape
      match tf_tensor.flat_double with
      | .error e => .error e
      | .ok flat =>
        match fill_loop data 0 flat with
        | .error e => .error e
        | .ok flat =>
          .ok { self with m_tf_tensor := { tf_tensor with m_double := flat },
                          m_has_tf_tensor := true }

/-- The overload `JTensor::init_from_data(const std::vector<long long>&, shape)`. -/
def init_from_data_long_long (self : JTensor) (data : List Int) (shape : List Int) :
    Except Fault JTensor :=
  let self := { self with m_dtype := DataType.INT64 }
  match init_shape data.length shape with
  | .error e => .error e
  | .ok s =>
    let self := { self with m_shape := s }
    match tensorflow.TensorShape.new.add_dims self.m_shape with
    | .error e => .error e
    | .ok tf_shape =>
      let tf_tensor := tensorflow.Tensor.alloc tensorflow.DataType.DT_INT64 tf_shape
      match tf_tensor.flat_int64 with
      | .error e => .error e
      | .ok flat =>
        match fill_loop data 0 flat with
        | .error e => .error e
        | .ok flat =>
          .ok { self with m_tf_tensor := { tf_tensor with m_int64 := flat },
                          m_has_tf_tensor := true }

/-- The factory `JTensor::from_data(const std::vector<double>&, shape)`. -/
def from_data_double (data : List Float) (shape : List Int) : Except Fault JTensor :=
  init_from_data_double new data shape

/-- The factory `JTensor::from_data(const std::vector<long long>&, shape)`. -/
def from_data_long_long (data : List Int) (shape : List Int) : Except Fault JTensor :=
  init_from_data_long_long new data shape

end JTensor

/-! ## Native configuration: `TFSession` -/

/-- The data member of `TFSession`. -/
structure TFSession where
  m_initialized : Bool
  deriving DecidableEq, Repr

namespace TFSession

/-- The constructor `TFSession::TFSession()`. -/
def new : TFSession :=
  let self : TFSession := { m_initialized := false }
  { self with m_initialized := true }

/-- The accessor `TFSession::is_initialized()`. -/
def is_initialized (self : TFSession) : Bool := self.m_initialized

/-- The loop `for (int i = 0; i < flat_a.size(); ++i) flat_result(i) = flat_a(i) + flat_b(i)`
on `tensorflow::int64` elements, from counter value `i` on.  The counter is an
`int`, compared with the 64-bit element count. -/
def add_loop_int64 (flat_a flat_b : List Int) (i : Nat) (flat_result : List Int) :
    Except Fault (List Int) :=
  if i < flat_a.length then
    match flat_a[i]?, flat_b[i]? with
    | some x, some y =>
      if i < flat_result.length then
        if (i : Int) = INT_MAX then .error Fault.signed_overflow
        else add_loop_int64 flat_a flat_b (i + 1) (flat_result.set i (wrap_int64 (x + y)))
      else .error Fault.out_of_bounds
    | _, _ => .error Fault.out_of_bounds
  else .ok flat_result
termination_by flat_a.length - i

/-- The same loop on `double` elements. -/
def add_loop_double (flat_a flat_b : List Float) (i : Nat) (flat_result : List Float) :
    Except Fault (List Float) :=
  if i < flat_a.length then
    match flat_a[i]?, flat_b[i]? with
    | some x, some y =>
      if i < flat_result.length then
        if (i : Int) = INT_MAX then .error Fault.signed_overflow
        else add_loop_double flat_a flat_b (i + 1) (flat_result.set i (x + y))
      else .error Fault.out_of_bounds
    | _, _ => .error Fault.out_of_bounds
  else .ok flat_result
termination_by flat_a.length - i

/-- The element loops of the native `add`, selected by the element type of `tf_a`. -/
def add_elements (tf_a tf_b result : tensorflow.Tensor) : Except Fault tensorflow.Tensor :=
  if tf_a.dtype = tensorflow.DataType.DT_DOUBLE then
    match tf_a.flat_double, tf_b.flat_double, result.flat_double with
    | .ok flat_a, .ok flat_b, .ok flat_result =>
      match add_loop_double flat_a flat_b 0 flat_result with
      | .error e => .error e
      | .ok r => .ok { result with m_double := r }
    | _, _, _ => .error Fault.check_failed
  else if tf_a.dtype = tensorflow.DataType.DT_INT64 then
    match tf_a.flat_int64, tf_b.flat_int64, result.flat_int64 with
    | .ok flat_a, .ok flat_b, .ok flat_result =>
      match add_loop_int64 flat_a flat_b 0 flat_result with
      | .error e => .error e
      | .ok r => .ok { result with m_int64 := r }
    | _, _, _ => .error Fault.check_failed
  else .ok result

/-- The native `TFSession::add`. -/
def add (self : TFSession) (a b : Option JTensor) : Except Fault (Option JTensor) :=
  match a, b with
  | some a, some b =>
    if ¬ self.m_initialized then .ok none
    else if a.shape = b.shape then
      let tf_a := a.get_tf_tensor
      let tf_b := b.get_tf_tensor
      let result := tensorflow.Tensor.alloc tf_a.dtype tf_a.shape
      match add_elements tf_a tf_b result with
      | .error e => .error e
      | .ok result => .ok (some (JTensor.of_tf_tensor result))
    else .ok none
  | _, _ => .ok none

/-- The native `TFSession::subtract`, a placeholder. -/
def subtract (_a _b : Option JTensor) : Option JTensor := none

/-- The native `TFSession::multiply`, a placeholder. -/
def multiply (_a _b : Option JTensor) : Option JTensor := none

/-- The native `TFSession::divide`, a placeholder. -/
def divide (_a _b : Option JTensor) : Option JTensor := none

/-- The generator `TFSession::iota`. -/
def iota (n : Int) : Except Fault JTensor :=
  let data := iota_loop n 0 []
  JTensor.from_data_long_long data [n]

/-- The native `TFSession::reshape`: the size check, then a placeholder. -/
def reshape (tensor : Option JTensor) (new_shape : List Int) : Option JTensor :=
  match tensor with
  | none => none
  | some t =>
    let current_size := t.size
    let new_size := size_t_product new_shape
    if current_size ≠ new_size then none
    else none

/-- The native `TFSession::transpose`, a placeholder. -/
def transpose (_tensor : Option JTensor) : Option JTensor := none

/-- The native `TFSession::reduce_sum`, a placeholder. -/
def reduce_sum (_tensor : Option JTensor) (_axes : List Int) : Option JTensor := none

end TFSession

end Native

/-- The member `std::vector<T>::resize(count, value)`. -/
def vector_resize {α : Type} (v : List α) (count : Nat) (value : α) : List α :=
  v.take count ++ List.replicate (count - v.length) value

namespace Fallback

/-! ## Fallback configuration: `zeros`, `print` and the `JValue` entry point -/

namespace JTensor

/-- The factory `JTensor::zeros`. -/
def zeros (shape : List Int) : JTensor :=
  let tensor := new
  let tensor := { tensor with m_shape := shape }
  let tensor := { tensor with m_dtype := DataType.FLOAT64 }
  let total_size := size_t_product shape
  { tensor with m_float_data := vector_resize tensor.m_float_data total_size 0.0 }

/-- The three loops of `print` that write a sequence with `", "` between its
elements: `for (size_t i = 0; i < v.size(); ++i) { if (i > 0) os << ", "; os << v[i]; }`,
from counter value `i` on, `rest` being the elements not yet written. -/
def print_loop {α : Type} (fmt : α → String) : Nat → List α → String → String
  | _, [], os => os
  | i, x :: rest, os =>
    print_loop fmt (i + 1) rest ((if i > 0 then os ++ ", " else os) ++ fmt x)

/-- The part of `JTensor::print` after `", data="` and before the closing `")"`.
The text that `operator<<` writes for a `double` is the parameter `fmt_double`. -/
def print_data (fmt_double : Float → String) (self : JTensor) (os : String) :
    Except Fault String :=
  if self.m_shape.isEmpty then
    if self.m_dtype = DataType.FLOAT64 then
      match self.get_scalar_double with
      | .error e => .error e
      | .ok v => .ok (os ++ fmt_double v)
    else if self.m_dtype = DataType.INT64 then
      match self.get_scalar_long_long with
      | .error e => .error e
      | .ok v => .ok (os ++ toString v)
    else .ok (os ++ "?")
  else if self.m_shape.length = 1 ∧ self.m_shape.headD 0 ≤ 10 then
    let os := os ++ "["
    if self.m_dtype = DataType.FLOAT64 then
      match self.get_flat_double with
      | .error e => .error e
      | .ok data => .ok (print_loop fmt_double 0 data os ++ "]")
    else if self.m_dtype = DataType.INT64 then
      match self.get_flat_long_long with
      | .error e => .error e
      | .ok data => .ok (print_loop (fun (v : Int) => toString v) 0 data os ++ "]")
    else .ok (os ++ "]")
  else .ok (os ++ "<tensor of size " ++ toString self.size ++ ">")

/-- The member `JTensor::print`, the stream being the text written so far. -/
def print (fmt_double : Float → String) (self : JTensor) (os : String) : Except Fault String :=
  let os := os ++ "JTensor(shape=["
  let os := print_loop (fun (d : Int) => toString d) 0 self.m_shape os
  let os := os ++ "], dtype="
  let os :=
    match self.m_dtype with
    | DataType.FLOAT64 => os ++ "FLOAT64"
    | DataType.INT64 => os ++ "INT64"
    | DataType.STRING => os ++ "STRING"
    | DataType.UNKNOWN => os ++ "UNKNOWN"
  let os := os ++ ", data="
  match print_data fmt_double self os with
  | .error e => .error e
  | .ok os => .ok (os ++ ")")

/-- The number of elements in the buffer selected by the dtype (the active storage). -/
def storage_count (self : JTensor) : Nat :=
  match self.m_dtype with
  | DataType.FLOAT64 => self.m_float_data.length
  | DataType.INT64 => self.m_int_data.length
  | DataType.STRING => self.m_string_data.length
  | DataType.UNKNOWN => 0

/-- The size invariant of the data model: `size()` is the number of elements of
the active storage, and it is the product of the shape as a `size_t`. -/
def size_invariant (self : JTensor) : Prop :=
  self.size = self.storage_count ∧
    (self.size : Int) = self.shape.prod % 18446744073709551616

end JTensor

/-- Modelled from the spec: the tagged value type `JValue` is declared outside
this file; it is a discriminated union that holds a tensor pointer or a value of
another kind (nothing included), of which only the tag matters here. -/
inductive JValue where
  | tensor (ptr : Option JTensor)
  | other (kind : Nat)

namespace TFSession

/-- The overload `TFSession::reduce_sum(const JValue&)`.  The default argument
for `axes` of the tensor overload is declared in the header and is a parameter. -/
def reduce_sum_JValue (default_axes : List Int) (operand : JValue) : Except Fault JValue :=
  match operand with
  | JValue.other _ => .error Fault.runtime_error
  | JValue.tensor tensor_ptr =>
    match tensor_ptr with
    | none => .error Fault.runtime_error
    | some t =>
      match reduce_sum (some t) default_axes with
      | .error e => .error e
      | .ok result => .ok (JValue.tensor result)

end TFSession

/-- The tensors that the public constructors `zeros` (non-negative dimensions),
`scalar`, `from_data` (size assertion passed) and `copy` can produce. -/
inductive Constructible : JTensor → Prop where
  | zeros (s : List Int) (hs : ∀ d ∈ s, 0 ≤ d ∧ d ≤ LLONG_MAX) : Constructible (JTensor.zeros s)
  | scalar_double (v : Float) (t : JTensor) (h : JTensor.scalar_double v = .ok t) :
      Constructible t
  | scalar_long_long (v : Int) (t : JTensor) (h : JTensor.scalar_long_long v = .ok t) :
      Constructible t
  | from_data_double (d : List Float) (s : List Int) (t : JTensor)
      (h : JTensor.from_data_double d s = .ok t) : Constructible t
  | from_data_long_long (d : List Int) (s : List Int) (t : JTensor)
      (h : JTensor.from_data_long_long d s = .ok t) : Constructible t
  | copy (t : JTensor) (h : Constructible t) : Constructible (JTensor.copy t)

end Fallback

namespace Native

/-! ## Native configuration: `zeros`, `scalar`, `copy`, `get_scalar` and the `JValue` entry point -/

namespace tensorflow

namespace Tensor

/-- The view `Tensor::scalar<double>()()`: a fatal check unless the element
type is `double` and the tensor has exactly one element. -/
def scalar_double (self : Tensor) : Except Fault Float :=
  if self.m_dtype = DataType.DT_DOUBLE ∧ self.m_shape.num_elements = 1 then
    .ok (self.m_double.headD 0.0)
  else .error Fault.check_failed

/-- The view `Tensor::scalar<tensorflow::int64>()()`. -/
def scalar_int64 (self : Tensor) : Except Fault Int :=
  if self.m_dtype = DataType.DT_INT64 ∧ self.m_shape.num_elements = 1 then
    .ok (self.m_int64.headD 0)
  else .error Fault.check_failed

end Tensor

end tensorflow

namespace JTensor

/-- The loop `for (int i = 0; i < flat.size(); ++i) flat(i) = 0.0` of `zeros`,
from counter value `i` on. -/
def zero_loop (i : Nat) (flat : List Float) : Except Fault (List Float) :=
  if i < flat.length then
    if (i : Int) = INT_MAX then .error Fault.signed_overflow
    else zero_loop (i + 1) (flat.set i 0.0)
  else .ok flat
termination_by flat.length - i
decreasing_by simp only [List.length_set]; omega

/-- The factory `JTensor::zeros`. -/
def zeros (shape : List Int) : Except Fault JTensor :=
  let tensor := new
  let tensor := { tensor with m_shape := shape }
  let tensor := { tensor with m_dtype := DataType.FLOAT64 }
  match tensorflow.TensorShape.new.add_dims shape with
  | .error e => .error e
  | .ok tf_shape =>
    let tf_tensor := tensorflow.Tensor.alloc tensorflow.DataType.DT_DOUBLE tf_shape
    match tf_tensor.flat_double with
    | .error e => .error e
    | .ok flat =>
      match zero_loop 0 flat with
      | .error e => .error e
      | .ok flat =>
        .ok { tensor with m_tf_tensor := { tf_tensor with m_double := flat },
                          m_has_tf_tensor := true }

/-- The factory `JTensor::scalar(double)`. -/
def scalar_double (value : Float) : Except Fault JTensor :=
  init_from_data_double new [value] []

/-- The factory `JTensor::scalar(long long)`. -/
def scalar_long_long (value : Int) : Except Fault JTensor :=
  init_from_data_long_long new [value] []

/-- The factory `JTensor::copy(const JTensor&)`; the native array is copied
through `flat<double>()` whatever its element type. -/
def copy (other : JTensor) : Except Fault JTensor :=
  let tensor := new
  let tensor := { tensor with m_shape := other.m_shape }
  let tensor := { tensor with m_dtype := other.m_dtype }
  if other.m_has_tf_tensor then
    let tf_tensor := tensorflow.Tensor.alloc other.m_tf_tensor.dtype other.m_tf_tensor.shape
    match tf_tensor.flat_double, other.m_tf_tensor.flat_double with
    | .ok _, .ok src =>
      .ok { tensor with m_tf_tensor := { tf_tensor with m_double := src },
                        m_has_tf_tensor := true,
                        m_float_data := other.m_float_data,
                        m_int_data := other.m_int_data,
                        m_string_data := other.m_string_data }
    | _, _ => .error Fault.check_failed
  else
    .ok { tensor with m_has_tf_tensor := false,
                      m_float_data := other.m_float_data,
                      m_int_data := other.m_int_data,
                      m_string_data := other.m_string_data }

/-- The specialization `JTensor::get_scalar<double>()`. -/
def get_scalar_double (self : JTensor) : Except Fault Float :=
  if ¬ self.m_shape.isEmpty then .error Fault.assertion_failed
  else if self.m_has_tf_tensor then self.m_tf_tensor.scalar_double
  else if self.m_dtype = DataType.FLOAT64 ∧ ¬ self.m_float_data.isEmpty then
    .ok (self.m_float_data.headD 0.0)
  else if self.m_dtype = DataType.INT64 ∧ ¬ self.m_int_data.isEmpty then
    .ok (Float.ofInt (self.m_int_data.headD 0))
  else .ok 0.0

/-- The specialization `JTensor::get_scalar<long long>()`. -/
def get_scalar_long_long (self : JTensor) : Except Fault Int :=
  if ¬ self.m_shape.isEmpty then .error Fault.assertion_failed
  else if self.m_has_tf_tensor then
    if self.m_tf_tensor.dtype = tensorflow.DataType.DT_INT64 then self.m_tf_tensor.scalar_int64
    else
      match self.m_tf_tensor.scalar_double with
      | .error e => .error e
      | .ok v => .ok (double_to_long_long v)
  else if self.m_dtype = DataType.INT64 ∧ ¬ self.m_int_data.isEmpty then
    .ok (self.m_int_data.headD 0)
  else if self.m_dtype = DataType.FLOAT64 ∧ ¬ self.m_float_data.isEmpty then
    .ok (double_to_long_long (self.m_float_data.headD 0.0))
  else .ok 0

/-- The number of elements of the active storage, the native array. -/
def storage_count (self : JTensor) : Nat :=
  if self.m_has_tf_tensor then
    match self.m_tf_tensor.dtype with
    | tensorflow.DataType.DT_DOUBLE => self.m_tf_tensor.m_double.length
    | tensorflow.DataType.DT_INT64 => self.m_tf_tensor.m_int64.length
    | _ => 0
  else 0

end JTensor

/-- Modelled from the spec: the tagged value type `JValue` is declared outside
this file; it is a discriminated union that holds a tensor pointer or a value of
another kind (nothing included), of which only the tag matters here. -/
inductive JValue where
  | tensor (ptr : Option JTensor)
  | other (kind : Nat)

namespace TFSession

/-- The overload `TFSession::reduce_sum(const JValue&)`.  The default argument
for `axes` of the tensor overload is declared in the header and is a parameter. -/
def reduce_sum_JValue (default_axes : List Int) (operand : JValue) : Except Fault JValue :=
  match operand with
  | JValue.other _ => .error Fault.runtime_error
  | JValue.tensor tensor_ptr =>
    match tensor_ptr with
    | none => .error Fault.runtime_error
    | some t =>
      let result := reduce_sum (some t) default_axes
      .ok (JValue.tensor result)

end TFSession

/-- The tensors that the public constructors `zeros` (non-negative dimensions),
`scalar`, `from_data` and `copy` can produce, when they return. -/
inductive Constructible : JTensor → Prop where
  | zeros (s : List Int) (t : JTensor) (hs : ∀ d ∈ s, 0 ≤ d ∧ d ≤ LLONG_MAX)
      (h : JTensor.zeros s = .ok t) : Constructible t
  | scalar_double (v : Float) (t : JTensor) (h : JTensor.scalar_double v = .ok t) :
      Constructible t
  | scalar_long_long (v : Int) (t : JTensor) (h : JTensor.scalar_long_long v = .ok t) :
      Constructible t
  | from_data_double (d : List Float) (s : List Int) (t : JTensor)
      (h : JTensor.from_data_double d s = .ok t) : Constructible t
  | from_data_long_long (d : List Int) (s : List Int) (t : JTensor)
      (h : JTensor.from_data_long_long d s = .ok t) : Constructible t
  | copy (t c : JTensor) (ht : Constructible t) (h : JTensor.copy t = .ok c) : Constructible c

end Native

/-! ## Facts about the machine-integer helpers -/

theorem to_size_t_of_nonneg (x : Int) (h0 : 0 ≤ x) (h1 : x ≤ LLONG_MAX) :
    to_size_t x = x.toNat := by
  unfold to_size_t LLONG_MAX at *
  rw [Int.emod_eq_of_lt h0 (by omega)]

theorem wrap_int64_of_is_int64 (x : Int) (h : is_int64 x) : wrap_int64 x = x := by
  unfold is_int64 LLONG_MAX at h
  unfold wrap_int64
  omega

theorem size_t_product_singleton (n : Int) (h0 : 0 ≤ n) (h1 : n ≤ LLONG_MAX) :
    size_t_product [n] = n.toNat := by
  unfold size_t_product size_t_mul
  simp only [List.foldl_cons, List.foldl_nil, one_mul]
  rw [to_size_t_of_nonneg n h0 h1]
  unfold LLONG_MAX at h1
  omega

/-! ## The index generator -/

theorem iota_loop_eq (n : Int) (k : Nat) :
    ∀ (i : Int) (data : List Int), (n - i).toNat = k →
      iota_loop n i data
        = data ++ (List.range k).map (fun (j : Nat) => i + (j : Int)) := by
  induction k with
  | zero =>
    intro i data h
    rw [iota_loop]
    have : ¬ i < n := by omega
    simp [this]
  | succ k ih =>
    intro i data h
    rw [iota_loop]
    have hlt : i < n := by omega
    simp only [hlt, if_true]
    rw [ih (i + 1) (data ++ [i]) (by omega), List.range_succ_eq_map]
    simp only [List.map_cons, List.map_map, List.append_assoc, List.singleton_append]
    congr 2
    · simp
    · apply List.map_congr_left
      intro j _
      simp only [Function.comp, Nat.succ_eq_add_one]
      push_cast
      ring

theorem iota_loop_zero (n : Int) :
    iota_loop n 0 [] = (List.range n.toNat).map (fun (j : Nat) => (j : Int)) := by
  rw [iota_loop_eq n n.toNat 0 [] (by simp)]
  simp

theorem iota_loop_of_nonpos (n : Int) (h : n ≤ 0) : iota_loop n 0 [] = [] := by
  rw [iota_loop]
  have : ¬ (0 : Int) < n := by omega
  simp [this]

theorem range_cast_getElem? (m i : Nat) (h : i < m) :
    ((List.range m).map (fun (j : Nat) => (j : Int)))[i]? = some (i : Int) := by
  simp [List.getElem?_map, List.getElem?_range h]

/-! ## The element-copy loop of the native `init_from_data` -/

theorem native_fill_loop_eq {α : Type} (data : List α) (k : Nat) :
    ∀ (i : Nat) (flat : List α), data.length - i = k → i ≤ data.length →
      flat.length = data.length →
      Native.JTensor.fill_loop data i flat = .ok (flat.take i ++ data.drop i) := by
  induction k with
  | zero =>
    intro i flat hk hi hlen
    rw [Native.JTensor.fill_loop]
    have h1 : ¬ i < data.length := by omega
    have h2 : i = data.length := by omega
    simp only [h1, dite_false]
    subst h2
    rw [List.drop_length, List.append_nil, ← hlen, List.take_length]
  | succ k ih =>
    intro i flat hk hi hlen
    rw [Native.JTensor.fill_loop]
    have h1 : i < data.length := by omega
    have h2 : i < flat.length := by omega
    simp only [h1, h2, dite_true, if_true]
    rw [ih (i + 1) _ (by omega) (by omega) (by simp [hlen])]
    congr 1
    apply List.ext_getElem?
    intro j
    simp only [List.getElem?_append, List.length_take, List.length_set, List.getElem?_take,
      List.getElem?_drop, List.getElem?_set, List.get_eq_getElem]
    by_cases hj : j < i
    · have e1 : j < min (i + 1) flat.length := by omega
      have e2 : j < min i flat.length := by omega
      have e3 : j < i + 1 := by omega
      have e4 : ¬ i = j := by omega
      simp [e1, e2, e3, e4, hj]
    · by_cases hj2 : j = i
      · subst hj2
        have e1 : j < min (j + 1) flat.length := by omega
        have e2 : ¬ j < min j flat.length := by omega
        have e3 : min j flat.length = j := by omega
        simp [e1, e2, e3, h2, h1]
      · have e1 : ¬ j < min (i + 1) flat.length := by omega
        have e2 : ¬ j < min i flat.length := by omega
        have e3 : min i flat.length = i := by omega
        have e4 : min (i + 1) flat.length = i + 1 := by omega
        have e5 : ¬ j < i + 1 := by omega
        have e6 : i + 1 + (j - (i + 1)) = i + (j - i) := by omega
        simp only [e3, e4, e5, hj, e6, if_false]

theorem native_fill_loop_zero {α : Type} (data flat : List α) (hlen : flat.length = data.length) :
    Native.JTensor.fill_loop data 0 flat = .ok data := by
  rw [native_fill_loop_eq data data.length 0 flat (by simp) (by simp) hlen]
  simp

/-! ## C1, C2: `TFSession::iota` -/

theorem fallback_iota_eq (n : Int) (h0 : 0 ≤ n) (hmax : n ≤ LLONG_MAX) :
    Fallback.TFSession.iota n = .ok
      { m_shape := [n], m_dtype := DataType.INT64, m_float_data := [],
        m_int_data := (List.range n.toNat).map (fun (j : Nat) => (j : Int)),
        m_string_data := [] } := by
  simp [Fallback.TFSession.iota, Fallback.JTensor.from_data_long_long,
    Fallback.JTensor.init_from_data_long_long, init_shape, iota_loop_zero,
    size_t_product_singleton n h0 hmax, Fallback.JTensor.new]

theorem native_iota_eq (n : Int) (h0 : 0 ≤ n) (hmax : n ≤ LLONG_MAX) :
    Native.TFSession.iota n = .ok
      { m_shape := [n], m_dtype := DataType.INT64, m_float_data := [], m_int_data := [],
        m_string_data := [],
        m_tf_tensor :=
          { m_dtype := Native.tensorflow.DataType.DT_INT64,
            m_shape := { dim_sizes := [n], num_elements := n },
            m_double := [],
            m_int64 := (List.range n.toNat).map (fun (j : Nat) => (j : Int)) },
        m_has_tf_tensor := true } := by
  have hlen : (List.replicate n.toNat (0 : Int)).length
      = ((List.range n.toNat).map (fun (j : Nat) => (j : Int))).length := by simp
  have hdim : ¬ LLONG_MAX < n := by omega
  have hneg : ¬ n < 0 := by omega
  simp [Native.TFSession.iota, Native.JTensor.from_data_long_long,
    Native.JTensor.init_from_data_long_long, init_shape, iota_loop_zero,
    size_t_product_singleton n h0 hmax, Native.JTensor.new,
    Native.tensorflow.TensorShape.add_dims, Native.tensorflow.TensorShape.AddDim,
    Native.tensorflow.TensorShape.new, Native.tensorflow.Tensor.alloc,
    Native.tensorflow.Tensor.flat_int64, hdim, hneg, native_fill_loop_zero _ _ hlen]

/-- C1: for every `n > 0` that is a `long long`, `TFSession::iota(n)` returns,
in the fallback and in the native configuration alike, a tensor of dtype
`INT64` and shape `[n]` (rank 1, size `n`) whose `get_flat<long long>()` has
`n` elements, element `i` being `i` for every `0 <= i < n`. -/
theorem iota_positive (n : Int) (hpos : 0 < n) (hmax : n ≤ LLONG_MAX) :
    (∃ t : Fallback.JTensor, Fallback.TFSession.iota n = .ok t ∧
        t.dtype = DataType.INT64 ∧ t.shape = [n] ∧ t.rank = 1 ∧ (t.size : Int) = n ∧
        ∃ flat : List Int, t.get_flat_long_long = .ok flat ∧ (flat.length : Int) = n ∧
          ∀ i : Nat, (i : Int) < n → flat[i]? = some (i : Int)) ∧
    (∃ t : Native.JTensor, Native.TFSession.iota n = .ok t ∧
        t.dtype = DataType.INT64 ∧ t.shape = [n] ∧ t.rank = 1 ∧ (t.size : Int) = n ∧
        ∃ flat : List Int, t.get_flat_long_long = .ok flat ∧ (flat.length : Int) = n ∧
          ∀ i : Nat, (i : Int) < n → flat[i]? = some (i : Int)) := by
  have hsize : ((to_size_t (wrap_int64 (1 * n)) : Nat) : Int) = n := by
    rw [one_mul, wrap_int64_of_is_int64 n ⟨by omega, hmax⟩,
      to_size_t_of_nonneg n (by omega) hmax]
    omega
  have hlen : (((List.range n.toNat).map (fun (j : Nat) => (j : Int))).length : Int) = n := by
    simp only [List.length_map, List.length_range]
    omega
  have helem : ∀ i : Nat, (i : Int) < n →
      ((List.range n.toNat).map (fun (j : Nat) => (j : Int)))[i]? = some (i : Int) :=
    fun i hi => range_cast_getElem? n.toNat i (by omega)
  refine ⟨⟨_, fallback_iota_eq n (by omega) hmax, rfl, rfl, rfl, ?_, _, ?_, hlen, helem⟩,
    ⟨_, native_iota_eq n (by omega) hmax, rfl, rfl, rfl, ?_, _, ?_, hlen, helem⟩⟩
  · simpa [Fallback.JTensor.size] using hsize
  · simp [Fallback.JTensor.get_flat_long_long]
  · simpa [Native.JTensor.size] using hsize
  · simp [Native.JTensor.get_flat_long_long, Native.tensorflow.Tensor.flat_int64]

/-- The statement of C1 at `n = 3`. -/
theorem iota_positive_witness :
    (0 : Int) < 3 ∧ (3 : Int) ≤ LLONG_MAX ∧
    ((∃ t : Fallback.JTensor, Fallback.TFSession.iota 3 = .ok t ∧
        t.dtype = DataType.INT64 ∧ t.shape = [3] ∧ t.rank = 1 ∧ (t.size : Int) = 3 ∧
        ∃ flat : List Int, t.get_flat_long_long = .ok flat ∧ (flat.length : Int) = 3 ∧
          ∀ i : Nat, (i : Int) < 3 → flat[i]? = some (i : Int)) ∧
    (∃ t : Native.JTensor, Native.TFSession.iota 3 = .ok t ∧
        t.dtype = DataType.INT64 ∧ t.shape = [3] ∧ t.rank = 1 ∧ (t.size : Int) = 3 ∧
        ∃ flat : List Int, t.get_flat_long_long = .ok flat ∧ (flat.length : Int) = 3 ∧
          ∀ i : Nat, (i : Int) < 3 → flat[i]? = some (i : Int))) :=
  ⟨by decide, by decide, iota_positive 3 (by decide) (by decide)⟩

/-- C2: at `n = -1` the generator does not return an empty tensor.  The loop
leaves `data` empty, `from_data` is called with the shape `[-1]`, whose
`size_t` product is `2^64 - 1`, and the assertion
`data.size() == expected_size` of `init_from_data` is violated, in both
configurations. -/
theorem iota_negative_aborts :
    Fallback.TFSession.iota (-1) = .error Fault.assertion_failed ∧
    Native.TFSession.iota (-1) = .error Fault.assertion_failed := by
  have h : size_t_product [-1] = 18446744073709551615 := by decide
  constructor
  · simp [Fallback.TFSession.iota, Fallback.JTensor.from_data_long_long,
      Fallback.JTensor.init_from_data_long_long, init_shape, iota_loop_of_nonpos, h]
  · simp [Native.TFSession.iota, Native.JTensor.from_data_long_long,
      Native.JTensor.init_from_data_long_long, init_shape, iota_loop_of_nonpos, h]

/-- Every negative `long long` argument of `iota` violates the same assertion. -/
theorem iota_of_negative (n : Int) (hneg : n < 0) (hmin : is_int64 n) :
    Fallback.TFSession.iota n = .error Fault.assertion_failed ∧
    Native.TFSession.iota n = .error Fault.assertion_failed := by
  have h : (0 : Nat) ≠ size_t_product [n] := by
    unfold size_t_product size_t_mul to_size_t
    unfold is_int64 LLONG_MAX at hmin
    simp only [List.foldl_cons, List.foldl_nil, one_mul]
    omega
  constructor
  · simp [Fallback.TFSession.iota, Fallback.JTensor.from_data_long_long,
      Fallback.JTensor.init_from_data_long_long, init_shape,
      iota_loop_of_nonpos n (by omega), h]
  · simp [Native.TFSession.iota, Native.JTensor.from_data_long_long,
      Native.JTensor.init_from_data_long_long, init_shape,
      iota_loop_of_nonpos n (by omega), h]

/-- The boundary `n = 0`: an empty rank-1 tensor, in both configurations. -/
theorem iota_zero :
    (∃ t : Fallback.JTensor, Fallback.TFSession.iota 0 = .ok t ∧ t.dtype = DataType.INT64 ∧
        t.shape = [0] ∧ t.rank = 1 ∧ t.size = 0 ∧ t.get_flat_long_long = .ok []) ∧
    (∃ t : Native.JTensor, Native.TFSession.iota 0 = .ok t ∧ t.dtype = DataType.INT64 ∧
        t.shape = [0] ∧ t.rank = 1 ∧ t.size = 0 ∧ t.get_flat_long_long = .ok []) := by
  refine ⟨⟨_, fallback_iota_eq 0 (by decide) (by decide), rfl, rfl, rfl, by decide, ?_⟩,
    ⟨_, native_iota_eq 0 (by decide) (by decide), rfl, rfl, rfl, by decide, ?_⟩⟩
  · simp [Fallback.JTensor.get_flat_long_long]
  · simp [Native.JTensor.get_flat_long_long, Native.tensorflow.Tensor.flat_int64]

/-! ## C3, C4: `TFSession::reshape` -/

theorem fallback_copy_eq (t : Fallback.JTensor) : Fallback.JTensor.copy t = t := rfl

/-- The fallback `reshape` never installs `new_shape`: a non-null result is the operand. -/
theorem fallback_reshape_eq_some (t r : Fallback.JTensor) (new_shape : List Int)
    (h : Fallback.TFSession.reshape (some t) new_shape = some r) : r = t := by
  unfold Fallback.TFSession.reshape at h
  by_cases hs : t.size ≠ size_t_product new_shape
  · simp [hs] at h
  · simp only [hs, if_false, Option.some.injEq] at h
    rw [← h, fallback_copy_eq]

/-- C3: a size-6 tensor of shape `[6]` reshaped to `[2, 3]` (the sizes agree).
The fallback `reshape` returns a copy that still has the shape `[6]`, not
`[2, 3]`; the native `reshape` returns null. -/
theorem reshape_does_not_reshape :
    (∃ t r : Fallback.JTensor, Fallback.TFSession.iota 6 = .ok t ∧ t.shape = [6] ∧
        t.size = 6 ∧ ([2, 3] : List Int).prod = (t.size : Int) ∧
        size_t_product [2, 3] = t.size ∧
        Fallback.TFSession.reshape (some t) [2, 3] = some r ∧
        r.shape = [6] ∧ r.shape ≠ [2, 3]) ∧
    (∃ t : Native.JTensor, Native.TFSession.iota 6 = .ok t ∧ t.shape = [6] ∧
        t.size = 6 ∧ ([2, 3] : List Int).prod = (t.size : Int) ∧
        Native.TFSession.reshape (some t) [2, 3] = none) := by
  refine ⟨⟨_, _, fallback_iota_eq 6 (by decide) (by decide), rfl, by decide, by decide,
      by decide, rfl, rfl, by decide⟩,
    ⟨_, native_iota_eq 6 (by decide) (by decide), rfl, by decide, by decide, rfl⟩⟩

theorem size_t_foldl_lt (shape : List Int) :
    ∀ acc : Nat, acc < 18446744073709551616 →
      shape.foldl (fun acc dim => size_t_mul acc (to_size_t dim)) acc < 18446744073709551616 := by
  induction shape with
  | nil => intro acc h; simpa using h
  | cons d rest ih =>
    intro acc _
    simp only [List.foldl_cons]
    apply ih
    unfold size_t_mul
    exact Nat.mod_lt _ (by decide)

theorem size_t_foldl_modEq (shape : List Int) :
    ∀ acc : Nat,
      ((shape.foldl (fun acc dim => size_t_mul acc (to_size_t dim)) acc : Nat) : Int)
          % 18446744073709551616
        = ((acc : Int) * shape.prod) % 18446744073709551616 := by
  induction shape with
  | nil => intro acc; simp
  | cons d rest ih =>
    intro acc
    simp only [List.foldl_cons, List.prod_cons]
    rw [ih]
    have hd : ((to_size_t d : Nat) : Int) = d % 18446744073709551616 := by
      unfold to_size_t
      exact Int.toNat_of_nonneg (Int.emod_nonneg _ (by decide))
    have hm : ((size_t_mul acc (to_size_t d) : Nat) : Int)
        = ((acc : Int) * (d % 18446744073709551616)) % 18446744073709551616 := by
      unfold size_t_mul
      push_cast
      rw [hd]
    rw [hm]
    have h1 : Int.ModEq 18446744073709551616
        ((acc : Int) * (d % 18446744073709551616) % 18446744073709551616) ((acc : Int) * d) :=
      (Int.mod_modEq _ _).trans ((Int.mod_modEq d 18446744073709551616).mul_left _)
    have h2 := h1.mul_right rest.prod
    rw [mul_assoc (acc : Int) d] at h2
    exact h2

/-- The `size_t` product computed by `reshape` is the mathematical product modulo `2^64`. -/
theorem size_t_product_eq (shape : List Int) :
    size_t_product shape = (shape.prod % 18446744073709551616).toNat := by
  have h1 := size_t_foldl_lt shape 1 (by decide)
  have h2 := size_t_foldl_modEq shape 1
  unfold size_t_product
  rw [Nat.cast_one, one_mul] at h2
  rw [← h2]
  omega

/-- C4, as stated, fails: the empty tensor of shape `[0]` has size 0, the
dimensions `2^32, 2^32` are non-negative 64-bit values whose product `2^64`
differs from 0, and the fallback `reshape` returns a tensor, not null. -/
theorem reshape_wraparound_counterexample :
    ∃ t r : Fallback.JTensor, Fallback.JTensor.from_data_long_long [] [0] = .ok t ∧
      t.size = 0 ∧
      (∀ d ∈ ([4294967296, 4294967296] : List Int), 0 ≤ d ∧ d ≤ LLONG_MAX) ∧
      ([4294967296, 4294967296] : List Int).prod ≠ (t.size : Int) ∧
      Fallback.TFSession.reshape (some t) [4294967296, 4294967296] = some r :=
  ⟨_, _, rfl, by decide, by decide, by decide, rfl⟩

/-- C4, amended: for every tensor `t` and every `new_shape` whose product
taken modulo `2^64` differs from `t.size()`, the fallback `reshape` returns
null; the native `reshape` returns null for every operand and shape. -/
theorem reshape_size_mismatch (t : Fallback.JTensor) (new_shape : List Int)
    (h : (new_shape.prod % 18446744073709551616).toNat ≠ t.size) :
    Fallback.TFSession.reshape (some t) new_shape = none ∧
    ∀ t2 : Native.JTensor, Native.TFSession.reshape (some t2) new_shape = none := by
  constructor
  · unfold Fallback.TFSession.reshape
    have hs : t.size ≠ size_t_product new_shape := by
      rw [size_t_product_eq]; exact fun e => h e.symm
    simp [hs]
  · intro t2
    simp [Native.TFSession.reshape]

/-- The amended C4 at the size-6 tensor `iota(6)` and the shape `[4]`. -/
theorem reshape_size_mismatch_witness :
    (([4] : List Int).prod % 18446744073709551616).toNat
        ≠ Fallback.JTensor.size
            { m_shape := [6], m_dtype := DataType.INT64, m_float_data := [],
              m_int_data := [0, 1, 2, 3, 4, 5], m_string_data := [] } ∧
    (Fallback.TFSession.reshape
        (some { m_shape := [6], m_dtype := DataType.INT64, m_float_data := [],
                m_int_data := [0, 1, 2, 3, 4, 5], m_string_data := [] }) [4] = none ∧
      ∀ t2 : Native.JTensor, Native.TFSession.reshape (some t2) [4] = none) :=
  ⟨by decide, reshape_size_mismatch _ [4] (by decide)⟩

/-! ## C8, C9: the fallback operations on their operands -/

/-- C8: in the fallback configuration each of `add`, `subtract`, `multiply` and
`divide`, applied to two non-null tensors, returns a non-null tensor with the
shape, the dtype and the flat data of the left operand, whatever the right
operand is. -/
theorem fallback_binary_ops_return_left (a b : Fallback.JTensor) :
    (∃ r, Fallback.TFSession.add (some a) (some b) = some r ∧
        r.shape = a.shape ∧ r.dtype = a.dtype ∧
        r.get_flat_long_long = a.get_flat_long_long ∧ r.get_flat_double = a.get_flat_double ∧
        r.m_int_data = a.m_int_data ∧ r.m_float_data = a.m_float_data ∧
        r.m_string_data = a.m_string_data ∧
        ∀ b2 : Fallback.JTensor, Fallback.TFSession.add (some a) (some b2) = some r) ∧
    (∃ r, Fallback.TFSession.subtract (some a) (some b) = some r ∧
        r.shape = a.shape ∧ r.dtype = a.dtype ∧
        r.get_flat_long_long = a.get_flat_long_long ∧ r.get_flat_double = a.get_flat_double ∧
        r.m_int_data = a.m_int_data ∧ r.m_float_data = a.m_float_data ∧
        r.m_string_data = a.m_string_data ∧
        ∀ b2 : Fallback.JTensor, Fallback.TFSession.subtract (some a) (some b2) = some r) ∧
    (∃ r, Fallback.TFSession.multiply (some a) (some b) = some r ∧
        r.shape = a.shape ∧ r.dtype = a.dtype ∧
        r.get_flat_long_long = a.get_flat_long_long ∧ r.get_flat_double = a.get_flat_double ∧
        r.m_int_data = a.m_int_data ∧ r.m_float_data = a.m_float_data ∧
        r.m_string_data = a.m_string_data ∧
        ∀ b2 : Fallback.JTensor, Fallback.TFSession.multiply (some a) (some b2) = some r) ∧
    (∃ r, Fallback.TFSession.divide (some a) (some b) = some r ∧
        r.shape = a.shape ∧ r.dtype = a.dtype ∧
        r.get_flat_long_long = a.get_flat_long_long ∧ r.get_flat_double = a.get_flat_double ∧
        r.m_int_data = a.m_int_data ∧ r.m_float_data = a.m_float_data ∧
        r.m_string_data = a.m_string_data ∧
        ∀ b2 : Fallback.JTensor, Fallback.TFSession.divide (some a) (some b2) = some r) :=
  ⟨⟨_, rfl, rfl, rfl, rfl, rfl, rfl, rfl, rfl, fun _ => rfl⟩,
   ⟨_, rfl, rfl, rfl, rfl, rfl, rfl, rfl, rfl, fun _ => rfl⟩,
   ⟨_, rfl, rfl, rfl, rfl, rfl, rfl, rfl, rfl, fun _ => rfl⟩,
   ⟨_, rfl, rfl, rfl, rfl, rfl, rfl, rfl, rfl, fun _ => rfl⟩⟩

/-- The fallback operations that do test their operand: an absent operand gives
an absent result. -/
theorem fallback_null_operand_propagates (x : Option Fallback.JTensor) (s : List Int)
    (axes : List Int) :
    Fallback.TFSession.add none x = none ∧ Fallback.TFSession.add x none = none ∧
    Fallback.TFSession.subtract none x = none ∧ Fallback.TFSession.subtract x none = none ∧
    Fallback.TFSession.multiply none x = none ∧ Fallback.TFSession.multiply x none = none ∧
    Fallback.TFSession.divide none x = none ∧ Fallback.TFSession.divide x none = none ∧
    Fallback.TFSession.reshape none s = none ∧
    Fallback.TFSession.reduce_sum none axes = .ok none := by
  cases x <;> simp [Fallback.TFSession.add, Fallback.TFSession.subtract,
    Fallback.TFSession.multiply, Fallback.TFSession.divide, Fallback.TFSession.stub_binary_op,
    Fallback.TFSession.reshape, Fallback.TFSession.reduce_sum]

/-- C9: the fallback `transpose` applied to a null operand does not return
null.  It has no test of its operand, unlike `stub_binary_op`, `reshape` and
`reduce_sum`, and dereferences the null pointer in `JTensor::copy(*tensor)`. -/
theorem transpose_null_dereferences :
    Fallback.TFSession.transpose none = .error Fault.null_dereference := rfl

/-! ## C10: total reduction in the fallback configuration -/

theorem fallback_from_data_long_long_ok (d s : List Int) (t : Fallback.JTensor)
    (ht : Fallback.JTensor.from_data_long_long d s = .ok t) :
    t.m_dtype = DataType.INT64 ∧ t.m_int_data = d ∧ t.m_float_data = [] ∧
      init_shape d.length s = .ok t.m_shape := by
  unfold Fallback.JTensor.from_data_long_long Fallback.JTensor.init_from_data_long_long at ht
  cases hs : init_shape d.length s with
  | error e => simp [hs] at ht
  | ok sh =>
    simp only [hs, Except.ok.injEq] at ht
    subst ht
    exact ⟨rfl, rfl, rfl, rfl⟩

theorem wrap_int64_emod (x : Int) :
    wrap_int64 x % 18446744073709551616 = x % 18446744073709551616 := by
  unfold wrap_int64
  omega

theorem wrap_int64_congr (x y : Int)
    (h : x % 18446744073709551616 = y % 18446744073709551616) :
    wrap_int64 x = wrap_int64 y := by
  unfold wrap_int64
  omega

/-- Left-to-right accumulation in `long long` is the mathematical sum reduced to 64 bits. -/
theorem wrapped_foldl_sum (d : List Int) :
    ∀ acc : Int, wrap_int64 (d.foldl (fun sum val => wrap_int64 (sum + val)) acc)
      = wrap_int64 (acc + d.sum) := by
  induction d with
  | nil => intro acc; simp
  | cons v rest ih =>
    intro acc
    simp only [List.foldl_cons, List.sum_cons]
    rw [ih]
    apply wrap_int64_congr
    have := wrap_int64_emod (acc + v)
    omega

theorem wrap_int64_idem (x : Int) : wrap_int64 (wrap_int64 x) = wrap_int64 x :=
  wrap_int64_congr _ _ (wrap_int64_emod x)

theorem wrapped_foldl_eq (d : List Int) :
    d.foldl (fun sum val => wrap_int64 (sum + val)) 0 = wrap_int64 d.sum := by
  have h := wrapped_foldl_sum d 0
  rw [zero_add] at h
  rw [← h]
  cases d using List.reverseRecOn with
  | nil => decide
  | append_singleton l v _ =>
    simp only [List.foldl_append, List.foldl_cons, List.foldl_nil]
    rw [wrap_int64_idem]

/-- C10: in the fallback configuration, for every `INT64` tensor `t` built by
`from_data` (hence also by `iota`) and every `axes`, `reduce_sum(t, axes)`
returns a non-null tensor of rank 0 and dtype `INT64` whose
`get_scalar<long long>()` is the sum of the elements accumulated left to right
in 64-bit arithmetic, which is the mathematical sum reduced to 64 bits. -/
theorem reduce_sum_int64_total (d s axes : List Int) (t : Fallback.JTensor)
    (ht : Fallback.JTensor.from_data_long_long d s = .ok t) :
    ∃ r : Fallback.JTensor, Fallback.TFSession.reduce_sum (some t) axes = .ok (some r) ∧
      r.rank = 0 ∧ r.dtype = DataType.INT64 ∧
      r.get_scalar_long_long = .ok (d.foldl (fun sum val => wrap_int64 (sum + val)) 0) ∧
      d.foldl (fun sum val => wrap_int64 (sum + val)) 0 = wrap_int64 d.sum := by
  obtain ⟨hdt, hdata, _, _⟩ := fallback_from_data_long_long_ok d s t ht
  refine ⟨{ m_shape := [], m_dtype := DataType.INT64, m_float_data := [],
            m_int_data := [d.foldl (fun sum val => wrap_int64 (sum + val)) 0],
            m_string_data := [] }, ?_, rfl, rfl, ?_, wrapped_foldl_eq d⟩
  · simp [Fallback.TFSession.reduce_sum, Fallback.JTensor.dtype,
      Fallback.JTensor.get_flat_long_long, hdt, hdata, Fallback.JTensor.scalar_long_long,
      Fallback.JTensor.init_from_data_long_long, init_shape, Fallback.JTensor.new]
  · simp [Fallback.JTensor.get_scalar_long_long]

/-- The statement of C10 at `from_data([1, 2, 3, 4], [4])`: the scalar is 10. -/
theorem reduce_sum_int64_total_witness :
    Fallback.JTensor.from_data_long_long [1, 2, 3, 4] [4]
        = .ok { m_shape := [4], m_dtype := DataType.INT64, m_float_data := [],
                m_int_data := [1, 2, 3, 4], m_string_data := [] } ∧
    ∃ r : Fallback.JTensor,
      Fallback.TFSession.reduce_sum
          (some { m_shape := [4], m_dtype := DataType.INT64, m_float_data := [],
                  m_int_data := [1, 2, 3, 4], m_string_data := [] }) [0] = .ok (some r) ∧
      r.rank = 0 ∧ r.dtype = DataType.INT64 ∧
      r.get_scalar_long_long = .ok 10 ∧
      (10 : Int) = wrap_int64 ([1, 2, 3, 4] : List Int).sum :=
  ⟨rfl, reduce_sum_int64_total [1, 2, 3, 4] [4] [0] _ rfl⟩

/-! ## The native configuration: construction from data -/

theorem native_add_dims_ok (sh : List Int) :
    ∀ acc tf : Native.tensorflow.TensorShape,
      Native.tensorflow.TensorShape.add_dims acc sh = .ok tf →
      acc.num_elements = acc.dim_sizes.prod → 0 ≤ acc.num_elements →
      acc.num_elements ≤ LLONG_MAX →
      tf.dim_sizes = acc.dim_sizes ++ sh ∧ tf.num_elements = tf.dim_sizes.prod ∧
        0 ≤ tf.num_elements ∧ tf.num_elements ≤ LLONG_MAX := by
  induction sh with
  | nil =>
    intro acc tf h hp h0 h1
    simp only [Native.tensorflow.TensorShape.add_dims, Except.ok.injEq] at h
    subst h
    exact ⟨by simp, hp, h0, h1⟩
  | cons d rest ih =>
    intro acc tf h hp h0 h1
    simp only [Native.tensorflow.TensorShape.add_dims, Native.tensorflow.TensorShape.AddDim] at h
    by_cases c1 : d < 0
    · simp [c1] at h
    · by_cases c2 : 254 ≤ acc.dim_sizes.length
      · simp [c1, c2] at h
      · by_cases c3 : LLONG_MAX < acc.num_elements * d
        · simp [c1, c2, c3] at h
        · simp only [c1, c2, c3, if_false] at h
          have hd : 0 ≤ d := by omega
          have c4 : acc.num_elements * d ≤ LLONG_MAX := by omega
          obtain ⟨e1, e2, e3, e4⟩ := ih _ tf h (by simp [hp]) (Int.mul_nonneg h0 hd) c4
          refine ⟨?_, e2, e3, e4⟩
          simpa using e1

/-- The shape stored by `init_from_data` has the element count of the data as
its product, whenever that product is a non-negative `long long`. -/
theorem init_shape_prod (len : Nat) (s sh : List Int) (h : init_shape len s = .ok sh)
    (hlen : (len : Int) ≤ LLONG_MAX) (h0 : 0 ≤ sh.prod) (h1 : sh.prod ≤ LLONG_MAX) :
    sh.prod = (len : Int) := by
  unfold init_shape at h
  cases c1 : s.isEmpty with
  | true =>
    simp only [c1, if_true] at h
    by_cases c2 : len = 1
    · rw [if_pos c2] at h
      simp only [Except.ok.injEq] at h
      subst h; subst c2; simp
    · rw [if_neg c2] at h
      simp only [Except.ok.injEq] at h
      subst h
      rw [wrap_int64_of_is_int64 _ ⟨by omega, hlen⟩]
      simp
  | false =>
    simp only [c1, Bool.false_eq_true, if_false] at h
    by_cases c3 : len = size_t_product s
    · rw [if_pos c3] at h
      simp only [Except.ok.injEq] at h
      subst h
      rw [size_t_product_eq] at c3
      unfold LLONG_MAX at h1
      omega
    · rw [if_neg c3] at h
      simp at h

theorem native_fill_loop_short_from {α : Type} (data : List α) (k : Nat) :
    ∀ (i : Nat) (flat : List α), flat.length - i = k → i ≤ flat.length →
      flat.length < data.length →
      Native.JTensor.fill_loop data i flat = .error Fault.out_of_bounds := by
  induction k with
  | zero =>
    intro i flat hk hi hlt
    rw [Native.JTensor.fill_loop]
    have h1 : i < data.length := by omega
    have h2 : ¬ i < flat.length := by omega
    simp only [h1, h2, dite_true, if_false]
  | succ k ih =>
    intro i flat hk hi hlt
    rw [Native.JTensor.fill_loop]
    have h1 : i < data.length := by omega
    have h2 : i < flat.length := by omega
    simp only [h1, h2, dite_true, if_true]
    exact ih (i + 1) _ (by simp; omega) (by simp; omega) (by simpa using hlt)

/-- A buffer shorter than the data makes the copy loop write out of bounds. -/
theorem native_fill_loop_short {α : Type} (data flat : List α)
    (hlt : flat.length < data.length) :
    Native.JTensor.fill_loop data 0 flat = .error Fault.out_of_bounds :=
  native_fill_loop_short_from data _ 0 flat rfl (Nat.zero_le _) hlt

/-- What a successful native `from_data` leaves in the tensor. -/
theorem native_from_data_long_long_ok (d s : List Int) (t : Native.JTensor)
    (ht : Native.JTensor.from_data_long_long d s = .ok t) :
    t.m_dtype = DataType.INT64 ∧ t.m_has_tf_tensor = true ∧
      t.m_tf_tensor.m_dtype = Native.tensorflow.DataType.DT_INT64 ∧
      t.m_tf_tensor.m_int64 = d ∧ t.m_tf_tensor.m_shape.dim_sizes = t.m_shape ∧
      t.m_tf_tensor.m_shape.num_elements = (d.length : Int) ∧
      t.m_shape.prod = (d.length : Int) ∧ (d.length : Int) ≤ LLONG_MAX ∧
      init_shape d.length s = .ok t.m_shape := by
  unfold Native.JTensor.from_data_long_long Native.JTensor.init_from_data_long_long at ht
  cases hs : init_shape d.length s with
  | error e => simp [hs] at ht
  | ok sh =>
    simp only [hs] at ht
    cases hd : Native.tensorflow.TensorShape.add_dims Native.tensorflow.TensorShape.new sh with
    | error e => simp [hd] at ht
    | ok tf =>
      obtain ⟨e1, e2, e3, e4⟩ := native_add_dims_ok sh _ tf hd rfl (by decide) (by decide)
      have e1 : tf.dim_sizes = sh := by simpa [Native.tensorflow.TensorShape.new] using e1
      simp only [hd, Native.tensorflow.Tensor.alloc, Native.tensorflow.Tensor.flat_int64,
        if_true] at ht
      by_cases hshort : (List.replicate tf.num_elements.toNat (0 : Int)).length < d.length
      · rw [native_fill_loop_short d _ hshort] at ht
        simp at ht
      · have hlen : (d.length : Int) ≤ LLONG_MAX := by
          simp only [List.length_replicate] at hshort
          omega
        have hp : sh.prod = (d.length : Int) :=
          init_shape_prod d.length s sh hs hlen (by rw [← e1, ← e2]; exact e3)
            (by rw [← e1, ← e2]; exact e4)
        have hn : tf.num_elements = (d.length : Int) := by rw [e2, e1, hp]
        have hfill : Native.JTensor.fill_loop d 0
            (List.replicate tf.num_elements.toNat (0 : Int)) = .ok d :=
          native_fill_loop_zero _ _ (by simp [hn])
        simp only [hfill, Except.ok.injEq] at ht
        subst ht
        exact ⟨rfl, rfl, rfl, rfl, e1, hn, hp, hlen, rfl⟩

/-- The native `from_data` on a rank-1 shape naming the length of the data. -/
theorem native_from_data_long_long_vector (d : List Int) (n : Int)
    (hn : (d.length : Int) = n) (hmax : n ≤ LLONG_MAX) :
    Native.JTensor.from_data_long_long d [n] = .ok
      { m_shape := [n], m_dtype := DataType.INT64, m_float_data := [], m_int_data := [],
        m_string_data := [],
        m_tf_tensor :=
          { m_dtype := Native.tensorflow.DataType.DT_INT64,
            m_shape := { dim_sizes := [n], num_elements := n },
            m_double := [], m_int64 := d },
        m_has_tf_tensor := true } := by
  have h0 : 0 ≤ n := by omega
  have hlen : (List.replicate n.toNat (0 : Int)).length = d.length := by
    simp only [List.length_replicate]; omega
  have hdim : ¬ LLONG_MAX < n := by omega
  have hneg : ¬ n < 0 := by omega
  have hsz : d.length = size_t_product [n] := by
    rw [size_t_product_singleton n h0 hmax]; omega
  simp [Native.JTensor.from_data_long_long, Native.JTensor.init_from_data_long_long, init_shape,
    ← hsz, Native.JTensor.new, Native.tensorflow.TensorShape.add_dims,
    Native.tensorflow.TensorShape.AddDim, Native.tensorflow.TensorShape.new,
    Native.tensorflow.Tensor.alloc, Native.tensorflow.Tensor.flat_int64, hdim, hneg,
    native_fill_loop_zero _ _ hlen]

/-! ## The native configuration: the element loop of `add` -/

theorem native_add_loop_int64_eq_fill (la lb : List Int) (hab : lb.length = la.length)
    (hmax : (la.length : Int) ≤ INT_MAX) (k : Nat) :
    ∀ (i : Nat) (res : List Int), la.length - i = k → res.length = la.length →
      Native.TFSession.add_loop_int64 la lb i res
        = Native.JTensor.fill_loop (List.zipWith (fun x y => wrap_int64 (x + y)) la lb) i res := by
  induction k with
  | zero =>
    intro i res hk hres
    rw [Native.TFSession.add_loop_int64, Native.JTensor.fill_loop]
    have h1 : ¬ i < la.length := by omega
    have h2 : ¬ i < (List.zipWith (fun x y => wrap_int64 (x + y)) la lb).length := by
      simp only [List.length_zipWith]; omega
    simp only [h1, h2, if_false, dite_false]
  | succ k ih =>
    intro i res hk hres
    rw [Native.TFSession.add_loop_int64, Native.JTensor.fill_loop]
    have h1 : i < la.length := by omega
    have h1b : i < lb.length := by omega
    have h2 : i < (List.zipWith (fun x y => wrap_int64 (x + y)) la lb).length := by
      simp only [List.length_zipWith]; omega
    have h3 : i < res.length := by omega
    have h4 : ¬ ((i : Int) = INT_MAX) := by omega
    simp only [h1, h2, h3, h4, if_true, if_false, dite_true, List.getElem?_eq_getElem h1,
      List.getElem?_eq_getElem h1b, List.get_eq_getElem, List.getElem_zipWith]
    exact ih (i + 1) _ (by omega) (by simp [hres])

/-- With at most `INT_MAX` elements the loop stores every wrapped sum. -/
theorem native_add_loop_int64_ok (la lb res : List Int) (hab : lb.length = la.length)
    (hres : res.length = la.length) (hmax : (la.length : Int) ≤ INT_MAX) :
    Native.TFSession.add_loop_int64 la lb 0 res
      = .ok (List.zipWith (fun x y => wrap_int64 (x + y)) la lb) := by
  rw [native_add_loop_int64_eq_fill la lb hab hmax la.length 0 res (by simp) hres]
  exact native_fill_loop_zero _ _ (by simp [List.length_zipWith, hab, hres])

theorem native_add_loop_int64_overflow_from (la lb : List Int) (hab : lb.length = la.length)
    (hbig : INT_MAX < (la.length : Int)) (k : Nat) :
    ∀ (i : Nat) (res : List Int), (INT_MAX - (i : Int)).toNat = k → (i : Int) ≤ INT_MAX →
      res.length = la.length →
      Native.TFSession.add_loop_int64 la lb i res = .error Fault.signed_overflow := by
  induction k with
  | zero =>
    intro i res hk hi hres
    rw [Native.TFSession.add_loop_int64]
    have h1 : i < la.length := by omega
    have h1b : i < lb.length := by omega
    have h3 : i < res.length := by omega
    have h4 : (i : Int) = INT_MAX := by omega
    simp only [h1, h3, h4, if_true, List.getElem?_eq_getElem h1, List.getElem?_eq_getElem h1b]
  | succ k ih =>
    intro i res hk hi hres
    rw [Native.TFSession.add_loop_int64]
    have h1 : i < la.length := by omega
    have h1b : i < lb.length := by omega
    have h3 : i < res.length := by omega
    have h4 : ¬ ((i : Int) = INT_MAX) := by omega
    simp only [h1, h3, h4, if_true, if_false, List.getElem?_eq_getElem h1,
      List.getElem?_eq_getElem h1b]
    exact ih (i + 1) _ (by push_cast; omega) (by push_cast; omega) (by simp [hres])

/-- With more than `INT_MAX` elements the `int` counter is incremented past `INT_MAX`. -/
theorem native_add_loop_int64_overflow (la lb res : List Int) (hab : lb.length = la.length)
    (hres : res.length = la.length) (hbig : INT_MAX < (la.length : Int)) :
    Native.TFSession.add_loop_int64 la lb 0 res = .error Fault.signed_overflow :=
  native_add_loop_int64_overflow_from la lb hab hbig _ 0 res rfl (by decide) hres

/-! ## C5, C6, C7: the binary operations in the two configurations -/

/-- The native `add` on two `INT64` tensors built by `from_data` with equal
shapes and at most `INT_MAX` elements: the element-wise sums in 64-bit
arithmetic, in a tensor of the same shape and dtype. -/
theorem native_add_int64_elementwise (da sa db sb : List Int) (a b : Native.JTensor)
    (ha : Native.JTensor.from_data_long_long da sa = .ok a)
    (hb : Native.JTensor.from_data_long_long db sb = .ok b)
    (hshape : a.shape = b.shape) (hmax : (da.length : Int) ≤ INT_MAX) :
    ∃ r : Native.JTensor,
      Native.TFSession.add Native.TFSession.new (some a) (some b) = .ok (some r) ∧
      r.shape = a.shape ∧ r.dtype = DataType.INT64 ∧ db.length = da.length ∧
      r.get_flat_long_long = .ok (List.zipWith (fun x y => wrap_int64 (x + y)) da db) := by
  obtain ⟨_, _, a3, a4, a5, a6, a7, _, _⟩ := native_from_data_long_long_ok da sa a ha
  obtain ⟨_, _, b3, b4, _, _, b7, _, _⟩ := native_from_data_long_long_ok db sb b hb
  have hab : db.length = da.length := by
    have h : b.m_shape.prod = a.m_shape.prod := by
      unfold Native.JTensor.shape at hshape; rw [hshape]
    rw [a7, b7] at h
    exact_mod_cast h
  have hres : (List.replicate a.m_tf_tensor.m_shape.num_elements.toNat (0 : Int)).length
      = da.length := by
    simp [a6]
  have hloop := native_add_loop_int64_ok da db _ hab hres hmax
  refine ⟨Native.JTensor.of_tf_tensor
      { m_dtype := Native.tensorflow.DataType.DT_INT64, m_shape := a.m_tf_tensor.m_shape,
        m_double := [],
        m_int64 := List.zipWith (fun x y => wrap_int64 (x + y)) da db }, ?_, ?_, rfl, hab, ?_⟩
  · simp [Native.TFSession.add, Native.TFSession.new, hshape, Native.JTensor.get_tf_tensor,
      Native.TFSession.add_elements, Native.tensorflow.Tensor.dtype,
      Native.tensorflow.Tensor.shape, Native.tensorflow.Tensor.alloc,
      Native.tensorflow.Tensor.flat_int64, a3, b3, a4, b4, hloop]
  · simp [Native.JTensor.of_tf_tensor, Native.JTensor.shape, Native.tensorflow.Tensor.shape, a5]
  · simp [Native.JTensor.of_tf_tensor, Native.JTensor.get_flat_long_long,
      Native.tensorflow.Tensor.flat_int64, Native.tensorflow.Tensor.dtype]

/-- The native `add` of a rank-1 `INT64` tensor of more than `INT_MAX` elements with itself. -/
theorem native_add_int64_overflow (d : List Int) (n : Int) (hn : (d.length : Int) = n)
    (hbig : INT_MAX < n) :
    Native.TFSession.add Native.TFSession.new
      (some { m_shape := [n], m_dtype := DataType.INT64, m_float_data := [], m_int_data := [],
              m_string_data := [],
              m_tf_tensor :=
                { m_dtype := Native.tensorflow.DataType.DT_INT64,
                  m_shape := { dim_sizes := [n], num_elements := n },
                  m_double := [], m_int64 := d },
              m_has_tf_tensor := true })
      (some { m_shape := [n], m_dtype := DataType.INT64, m_float_data := [], m_int_data := [],
              m_string_data := [],
              m_tf_tensor :=
                { m_dtype := Native.tensorflow.DataType.DT_INT64,
                  m_shape := { dim_sizes := [n], num_elements := n },
                  m_double := [], m_int64 := d },
              m_has_tf_tensor := true })
      = .error Fault.signed_overflow := by
  have hres : (List.replicate n.toNat (0 : Int)).length = d.length := by
    simp only [List.length_replicate]; unfold INT_MAX at hbig; omega
  have hloop := native_add_loop_int64_overflow d d _ rfl hres (by rw [hn]; exact hbig)
  simp [Native.TFSession.add, Native.TFSession.new, Native.JTensor.shape,
    Native.JTensor.get_tf_tensor, Native.TFSession.add_elements, Native.tensorflow.Tensor.dtype,
    Native.tensorflow.Tensor.shape, Native.tensorflow.Tensor.alloc,
    Native.tensorflow.Tensor.flat_int64, hloop]

/-- C7: the native `add` on the `INT64` tensor built by `from_data` from
`2^31` zeros with shape `[2^31]`, added to itself.  The element loop counts
with an `int` against the 64-bit element count: after the element at index
`INT_MAX` the increment `++i` overflows, and no tensor of sums is returned. -/
theorem native_add_int_counter_overflows :
    ∃ a : Native.JTensor,
      Native.JTensor.from_data_long_long (List.replicate 2147483648 0) [2147483648] = .ok a ∧
      a.dtype = DataType.INT64 ∧ a.shape = [2147483648] ∧
      Native.TFSession.add Native.TFSession.new (some a) (some a)
        = .error Fault.signed_overflow := by
  have hn : (((List.replicate 2147483648 (0 : Int)).length : Nat) : Int) = 2147483648 := by
    rw [List.length_replicate]; rfl
  exact ⟨_, native_from_data_long_long_vector _ 2147483648 hn (by decide), rfl, rfl,
    native_add_int64_overflow _ 2147483648 hn (by decide)⟩

/-- C5, as stated, fails in the fallback configuration: the tensors built from
`[1, 2, 3]` with shape `[3]` and from `[1, 2]` with shape `[2]` have different
shapes, and the fallback `add` returns a tensor. -/
theorem fallback_add_shape_mismatch_counterexample :
    ∃ a b r : Fallback.JTensor,
      Fallback.JTensor.from_data_long_long [1, 2, 3] [3] = .ok a ∧
      Fallback.JTensor.from_data_long_long [1, 2] [2] = .ok b ∧
      a.shape ≠ b.shape ∧ Fallback.TFSession.add (some a) (some b) = some r :=
  ⟨_, _, _, rfl, rfl, by decide, rfl⟩

/-- C5, amended: in the native configuration, for every pair of non-null
tensors whose shapes differ, `add` returns null; in the fallback
configuration `add` compares no shapes and returns a copy of its left operand
for every pair of non-null tensors. -/
theorem add_shape_mismatch (self : Native.TFSession) (a b : Native.JTensor)
    (h : a.shape ≠ b.shape) :
    Native.TFSession.add self (some a) (some b) = .ok none ∧
    ∀ a2 b2 : Fallback.JTensor, Fallback.TFSession.add (some a2) (some b2) = some a2 := by
  constructor
  · unfold Native.TFSession.add
    by_cases hi : self.m_initialized = true <;> simp [hi, h]
  · intro a2 b2
    rfl

/-- The amended C5 at the native tensors built from `[1, 2, 3]` with shape `[3]`
and from `[1, 2]` with shape `[2]`. -/
theorem add_shape_mismatch_witness :
    Native.JTensor.shape
        { m_shape := [3], m_dtype := DataType.INT64, m_float_data := [], m_int_data := [],
          m_string_data := [],
          m_tf_tensor :=
            { m_dtype := Native.tensorflow.DataType.DT_INT64,
              m_shape := { dim_sizes := [3], num_elements := 3 },
              m_double := [], m_int64 := [1, 2, 3] },
          m_has_tf_tensor := true }
      ≠ Native.JTensor.shape
        { m_shape := [2], m_dtype := DataType.INT64, m_float_data := [], m_int_data := [],
          m_string_data := [],
          m_tf_tensor :=
            { m_dtype := Native.tensorflow.DataType.DT_INT64,
              m_shape := { dim_sizes := [2], num_elements := 2 },
              m_double := [], m_int64 := [1, 2] },
          m_has_tf_tensor := true } ∧
    (Native.TFSession.add Native.TFSession.new
        (some { m_shape := [3], m_dtype := DataType.INT64, m_float_data := [], m_int_data := [],
                m_string_data := [],
                m_tf_tensor :=
                  { m_dtype := Native.tensorflow.DataType.DT_INT64,
                    m_shape := { dim_sizes := [3], num_elements := 3 },
                    m_double := [], m_int64 := [1, 2, 3] },
                m_has_tf_tensor := true })
        (some { m_shape := [2], m_dtype := DataType.INT64, m_float_data := [], m_int_data := [],
                m_string_data := [],
                m_tf_tensor :=
                  { m_dtype := Native.tensorflow.DataType.DT_INT64,
                    m_shape := { dim_sizes := [2], num_elements := 2 },
                    m_double := [], m_int64 := [1, 2] },
                m_has_tf_tensor := true }) = .ok none ∧
      ∀ a2 b2 : Fallback.JTensor, Fallback.TFSession.add (some a2) (some b2) = some a2) :=
  ⟨by decide, add_shape_mismatch Native.TFSession.new _ _ (by decide)⟩

/-- C6, as stated, fails in the fallback configuration: `add` of the tensors
built from `[1, 2, 3]` and `[4, 5, 6]`, both of shape `[3]`, has the flat data
`[1, 2, 3]`, not `[5, 7, 9]`. -/
theorem fallback_add_not_elementwise_counterexample :
    ∃ a b r : Fallback.JTensor,
      Fallback.JTensor.from_data_long_long [1, 2, 3] [3] = .ok a ∧
      Fallback.JTensor.from_data_long_long [4, 5, 6] [3] = .ok b ∧
      a.dtype = DataType.INT64 ∧ b.dtype = DataType.INT64 ∧ a.shape = b.shape ∧
      Fallback.TFSession.add (some a) (some b) = some r ∧
      r.get_flat_long_long = .ok [1, 2, 3] ∧ r.get_flat_long_long ≠ .ok [5, 7, 9] :=
  ⟨_, _, _, rfl, rfl, rfl, rfl, rfl, rfl, rfl, by
    intro h
    have h2 : ([1, 2, 3] : List Int) = [5, 7, 9] := Except.ok.inj h
    exact absurd h2 (by decide)⟩

/-- C6, amended.  Fallback configuration: for every non-null `INT64` tensor
`a` and every non-null tensor `b` (in particular an `INT64` tensor of equal
shape), each of `add`, `subtract`, `multiply`, `divide` returns a non-null
tensor of the same shape and dtype whose flat data is that of `a` (element `i`
is `a[i]`).  Native configuration: for two `INT64`
tensors built by `from_data` with equal shapes and at most `INT_MAX` elements,
`add` returns a non-null tensor of the same shape and dtype whose element `i`
is `a[i] + b[i]` in 64-bit arithmetic, and `subtract`, `multiply`, `divide`
return null. -/
theorem binary_ops_by_configuration (a b : Fallback.JTensor)
    (hdt : a.dtype = DataType.INT64)
    (da sa db sb : List Int) (na nb : Native.JTensor)
    (hna : Native.JTensor.from_data_long_long da sa = .ok na)
    (hnb : Native.JTensor.from_data_long_long db sb = .ok nb)
    (hnsh : na.shape = nb.shape) (hmax : (da.length : Int) ≤ INT_MAX) :
    (∃ r, Fallback.TFSession.add (some a) (some b) = some r ∧ r.shape = a.shape ∧
        r.dtype = DataType.INT64 ∧ r.get_flat_long_long = .ok a.m_int_data ∧
        a.get_flat_long_long = .ok a.m_int_data) ∧
    (∃ r, Fallback.TFSession.subtract (some a) (some b) = some r ∧ r.shape = a.shape ∧
        r.dtype = DataType.INT64 ∧ r.get_flat_long_long = .ok a.m_int_data) ∧
    (∃ r, Fallback.TFSession.multiply (some a) (some b) = some r ∧ r.shape = a.shape ∧
        r.dtype = DataType.INT64 ∧ r.get_flat_long_long = .ok a.m_int_data) ∧
    (∃ r, Fallback.TFSession.divide (some a) (some b) = some r ∧ r.shape = a.shape ∧
        r.dtype = DataType.INT64 ∧ r.get_flat_long_long = .ok a.m_int_data) ∧
    (∃ r : Native.JTensor,
        Native.TFSession.add Native.TFSession.new (some na) (some nb) = .ok (some r) ∧
        r.shape = na.shape ∧ r.dtype = DataType.INT64 ∧ db.length = da.length ∧
        r.get_flat_long_long = .ok (List.zipWith (fun x y => wrap_int64 (x + y)) da db)) ∧
    Native.TFSession.subtract (some na) (some nb) = none ∧
    Native.TFSession.multiply (some na) (some nb) = none ∧
    Native.TFSession.divide (some na) (some nb) = none := by
  have hflat : a.get_flat_long_long = .ok a.m_int_data := by
    unfold Fallback.JTensor.dtype at hdt
    simp [Fallback.JTensor.get_flat_long_long, hdt]
  exact ⟨⟨a, rfl, rfl, hdt, hflat, hflat⟩, ⟨a, rfl, rfl, hdt, hflat⟩, ⟨a, rfl, rfl, hdt, hflat⟩,
    ⟨a, rfl, rfl, hdt, hflat⟩,
    native_add_int64_elementwise da sa db sb na nb hna hnb hnsh hmax, rfl, rfl, rfl⟩

/-- The amended C6 at the tensors built from `[1, 2, 3]` and `[4, 5, 6]` with
shape `[3]`: the fallback results carry `[1, 2, 3]`, the native `add` carries
`[5, 7, 9]`. -/
theorem binary_ops_by_configuration_witness :
    Fallback.JTensor.dtype
        { m_shape := [3], m_dtype := DataType.INT64, m_float_data := [],
          m_int_data := [1, 2, 3], m_string_data := [] } = DataType.INT64 ∧
    Native.JTensor.from_data_long_long [1, 2, 3] [3] = .ok
        { m_shape := [3], m_dtype := DataType.INT64, m_float_data := [], m_int_data := [],
          m_string_data := [],
          m_tf_tensor :=
            { m_dtype := Native.tensorflow.DataType.DT_INT64,
              m_shape := { dim_sizes := [3], num_elements := 3 },
              m_double := [], m_int64 := [1, 2, 3] },
          m_has_tf_tensor := true } ∧
    Native.JTensor.from_data_long_long [4, 5, 6] [3] = .ok
        { m_shape := [3], m_dtype := DataType.INT64, m_float_data := [], m_int_data := [],
          m_string_data := [],
          m_tf_tensor :=
            { m_dtype := Native.tensorflow.DataType.DT_INT64,
              m_shape := { dim_sizes := [3], num_elements := 3 },
              m_double := [], m_int64 := [4, 5, 6] },
          m_has_tf_tensor := true } ∧
    ((([1, 2, 3] : List Int).length : Nat) : Int) ≤ INT_MAX ∧
    ((∃ r, Fallback.TFSession.add
          (some { m_shape := [3], m_dtype := DataType.INT64, m_float_data := [],
                  m_int_data := [1, 2, 3], m_string_data := [] })
          (some { m_shape := [3], m_dtype := DataType.INT64, m_float_data := [],
                  m_int_data := [4, 5, 6], m_string_data := [] }) = some r ∧
        r.shape = [3] ∧ r.dtype = DataType.INT64 ∧ r.get_flat_long_long = .ok [1, 2, 3] ∧
        Fallback.JTensor.get_flat_long_long
          { m_shape := [3], m_dtype := DataType.INT64, m_float_data := [],
            m_int_data := [1, 2, 3], m_string_data := [] } = .ok [1, 2, 3]) ∧
    (∃ r, Fallback.TFSession.subtract
          (some { m_shape := [3], m_dtype := DataType.INT64, m_float_data := [],
                  m_int_data := [1, 2, 3], m_string_data := [] })
          (some { m_shape := [3], m_dtype := DataType.INT64, m_float_data := [],
                  m_int_data := [4, 5, 6], m_string_data := [] }) = some r ∧
        r.shape = [3] ∧ r.dtype = DataType.INT64 ∧ r.get_flat_long_long = .ok [1, 2, 3]) ∧
    (∃ r, Fallback.TFSession.multiply
          (some { m_shape := [3], m_dtype := DataType.INT64, m_float_data := [],
                  m_int_data := [1, 2, 3], m_string_data := [] })
          (some { m_shape := [3], m_dtype := DataType.INT64, m_float_data := [],
                  m_int_data := [4, 5, 6], m_string_data := [] }) = some r ∧
        r.shape = [3] ∧ r.dtype = DataType.INT64 ∧ r.get_flat_long_long = .ok [1, 2, 3]) ∧
    (∃ r, Fallback.TFSession.divide
          (some { m_shape := [3], m_dtype := DataType.INT64, m_float_data := [],
                  m_int_data := [1, 2, 3], m_string_data := [] })
          (some { m_shape := [3], m_dtype := DataType.INT64, m_float_data := [],
                  m_int_data := [4, 5, 6], m_string_data := [] }) = some r ∧
        r.shape = [3] ∧ r.dtype = DataType.INT64 ∧ r.get_flat_long_long = .ok [1, 2, 3]) ∧
    (∃ r : Native.JTensor,
        Native.TFSession.add Native.TFSession.new
          (some { m_shape := [3], m_dtype := DataType.INT64, m_float_data := [],
                  m_int_data := [], m_string_data := [],
                  m_tf_tensor :=
                    { m_dtype := Native.tensorflow.DataType.DT_INT64,
                      m_shape := { dim_sizes := [3], num_elements := 3 },
                      m_double := [], m_int64 := [1, 2, 3] },
                  m_has_tf_tensor := true })
          (some { m_shape := [3], m_dtype := DataType.INT64, m_float_data := [],
                  m_int_data := [], m_string_data := [],
                  m_tf_tensor :=
                    { m_dtype := Native.tensorflow.DataType.DT_INT64,
                      m_shape := { dim_sizes := [3], num_elements := 3 },
                      m_double := [], m_int64 := [4, 5, 6] },
                  m_has_tf_tensor := true }) = .ok (some r) ∧
        r.shape = [3] ∧ r.dtype = DataType.INT64 ∧
        ([4, 5, 6] : List Int).length = ([1, 2, 3] : List Int).length ∧
        r.get_flat_long_long = .ok [5, 7, 9]) ∧
    Native.TFSession.subtract
        (some { m_shape := [3], m_dtype := DataType.INT64, m_float_data := [],
                m_int_data := [], m_string_data := [],
                m_tf_tensor :=
                  { m_dtype := Native.tensorflow.DataType.DT_INT64,
                    m_shape := { dim_sizes := [3], num_elements := 3 },
                    m_double := [], m_int64 := [1, 2, 3] },
                m_has_tf_tensor := true })
        (some { m_shape := [3], m_dtype := DataType.INT64, m_float_data := [],
                m_int_data := [], m_string_data := [],
                m_tf_tensor :=
                  { m_dtype := Native.tensorflow.DataType.DT_INT64,
                    m_shape := { dim_sizes := [3], num_elements := 3 },
                    m_double := [], m_int64 := [4, 5, 6] },
                m_has_tf_tensor := true }) = none ∧
    Native.TFSession.multiply
        (some { m_shape := [3], m_dtype := DataType.INT64, m_float_data := [],
                m_int_data := [], m_string_data := [],
                m_tf_tensor :=
                  { m_dtype := Native.tensorflow.DataType.DT_INT64,
                    m_shape := { dim_sizes := [3], num_elements := 3 },
                    m_double := [], m_int64 := [1, 2, 3] },
                m_has_tf_tensor := true })
        (some { m_shape := [3], m_dtype := DataType.INT64, m_float_data := [],
                m_int_data := [], m_string_data := [],
                m_tf_tensor :=
                  { m_dtype := Native.tensorflow.DataType.DT_INT64,
                    m_shape := { dim_sizes := [3], num_elements := 3 },
                    m_double := [], m_int64 := [4, 5, 6] },
                m_has_tf_tensor := true }) = none ∧
    Native.TFSession.divide
        (some { m_shape := [3], m_dtype := DataType.INT64, m_float_data := [],
                m_int_data := [], m_string_data := [],
                m_tf_tensor :=
                  { m_dtype := Native.tensorflow.DataType.DT_INT64,
                    m_shape := { dim_sizes := [3], num_elements := 3 },
                    m_double := [], m_int64 := [1, 2, 3] },
                m_has_tf_tensor := true })
        (some { m_shape := [3], m_dtype := DataType.INT64, m_float_data := [],
                m_int_data := [], m_string_data := [],
                m_tf_tensor :=
                  { m_dtype := Native.tensorflow.DataType.DT_INT64,
                    m_shape := { dim_sizes := [3], num_elements := 3 },
                    m_double := [], m_int64 := [4, 5, 6] },
                m_has_tf_tensor := true }) = none) :=
  ⟨rfl, native_from_data_long_long_vector [1, 2, 3] 3 rfl (by decide),
    native_from_data_long_long_vector [4, 5, 6] 3 rfl (by decide), by decide,
    binary_ops_by_configuration
      { m_shape := [3], m_dtype := DataType.INT64, m_float_data := [],
        m_int_data := [1, 2, 3], m_string_data := [] }
      { m_shape := [3], m_dtype := DataType.INT64, m_float_data := [],
        m_int_data := [4, 5, 6], m_string_data := [] } rfl [1, 2, 3] [3] [4, 5, 6] [3] _ _
      (native_from_data_long_long_vector [1, 2, 3] 3 rfl (by decide))
      (native_from_data_long_long_vector [4, 5, 6] 3 rfl (by decide)) rfl (by decide)⟩

/-! ## C11, C12: `reduce_sum` and its `JValue` entry point -/

/-- The fallback `reduce_sum` returns normally on every non-null operand: a
rank-0 tensor of the dtype of the operand for `INT64` and `FLOAT64`, null otherwise. -/
theorem fallback_reduce_sum_cases (t : Fallback.JTensor) (axes : List Int) :
    (t.dtype = DataType.INT64 ∧
      Fallback.TFSession.reduce_sum (some t) axes = .ok (some
        { m_shape := [], m_dtype := DataType.INT64, m_float_data := [],
          m_int_data := [t.m_int_data.foldl (fun sum val => wrap_int64 (sum + val)) 0],
          m_string_data := [] })) ∨
    (t.dtype = DataType.FLOAT64 ∧
      Fallback.TFSession.reduce_sum (some t) axes = .ok (some
        { m_shape := [], m_dtype := DataType.FLOAT64,
          m_float_data := [t.m_float_data.foldl (fun sum val => sum + val) 0.0],
          m_int_data := [], m_string_data := [] })) ∨
    (t.dtype ≠ DataType.INT64 ∧ t.dtype ≠ DataType.FLOAT64 ∧
      Fallback.TFSession.reduce_sum (some t) axes = .ok none) := by
  by_cases h1 : t.m_dtype = DataType.INT64
  · left
    refine ⟨h1, ?_⟩
    simp [Fallback.TFSession.reduce_sum, Fallback.JTensor.dtype,
      Fallback.JTensor.get_flat_long_long, h1, Fallback.JTensor.scalar_long_long,
      Fallback.JTensor.init_from_data_long_long, init_shape, Fallback.JTensor.new]
  · by_cases h2 : t.m_dtype = DataType.FLOAT64
    · right; left
      refine ⟨h2, ?_⟩
      simp [Fallback.TFSession.reduce_sum, Fallback.JTensor.dtype,
        Fallback.JTensor.get_flat_double, h2, Fallback.JTensor.scalar_double,
        Fallback.JTensor.init_from_data_double, init_shape, Fallback.JTensor.new]
    · right; right
      refine ⟨h1, h2, ?_⟩
      simp [Fallback.TFSession.reduce_sum, Fallback.JTensor.dtype, h1, h2]

/-- C11, as stated, fails in the fallback configuration: the `INT64` tensor
built from `[1, 2, 3, 4]` with shape `[2, 2]` has rank 2, `axes = [0]` names one
of its two axes, and `reduce_sum` returns neither a rank-1 tensor nor null
but the rank-0 total sum 10. -/
theorem reduce_sum_partial_axes_counterexample :
    ∃ t r : Fallback.JTensor,
      Fallback.JTensor.from_data_long_long [1, 2, 3, 4] [2, 2] = .ok t ∧ t.rank = 2 ∧
      Fallback.TFSession.reduce_sum (some t) [0] = .ok (some r) ∧
      r.rank = 0 ∧ r.rank ≠ t.rank - 1 ∧ r.get_scalar_long_long = .ok 10 :=
  ⟨_, _, rfl, rfl, rfl, rfl, by decide, rfl⟩

/-- C11, amended: the fallback `reduce_sum` never reads `axes`.  For every
non-null `INT64` or `FLOAT64` tensor, of any rank, and every `axes` list it
returns a non-null tensor of rank 0 and of the same dtype, the one it returns
for a total reduction; the native `reduce_sum` returns null for every operand
and every `axes`. -/
theorem reduce_sum_ignores_axes (t : Fallback.JTensor) (axes : List Int)
    (hdt : t.dtype = DataType.INT64 ∨ t.dtype = DataType.FLOAT64) :
    (∃ r : Fallback.JTensor, Fallback.TFSession.reduce_sum (some t) axes = .ok (some r) ∧
        r.rank = 0 ∧ r.dtype = t.dtype ∧
        ∀ axes2 : List Int, Fallback.TFSession.reduce_sum (some t) axes2 = .ok (some r)) ∧
    ∀ t2 : Native.JTensor, Native.TFSession.reduce_sum (some t2) axes = none := by
  refine ⟨?_, fun _ => rfl⟩
  rcases fallback_reduce_sum_cases t axes with ⟨h, hr⟩ | ⟨h, hr⟩ | ⟨h1, h2, _⟩
  · refine ⟨_, hr, rfl, h.symm, fun axes2 => ?_⟩
    rcases fallback_reduce_sum_cases t axes2 with ⟨_, hr2⟩ | ⟨h2, _⟩ | ⟨h2, _, _⟩
    · exact hr2
    · rw [h] at h2; cases h2
    · exact absurd h h2
  · refine ⟨_, hr, rfl, h.symm, fun axes2 => ?_⟩
    rcases fallback_reduce_sum_cases t axes2 with ⟨h2, _⟩ | ⟨_, hr2⟩ | ⟨_, h2, _⟩
    · rw [h] at h2; cases h2
    · exact hr2
    · exact absurd h h2
  · rcases hdt with h | h
    · exact absurd h h1
    · exact absurd h h2

/-- The amended C11 at the rank-2 tensor built from `[1, 2, 3, 4]` with shape
`[2, 2]` and `axes = [0]`. -/
theorem reduce_sum_ignores_axes_witness :
    (Fallback.JTensor.dtype
          { m_shape := [2, 2], m_dtype := DataType.INT64, m_float_data := [],
            m_int_data := [1, 2, 3, 4], m_string_data := [] } = DataType.INT64 ∨
      Fallback.JTensor.dtype
          { m_shape := [2, 2], m_dtype := DataType.INT64, m_float_data := [],
            m_int_data := [1, 2, 3, 4], m_string_data := [] } = DataType.FLOAT64) ∧
    ((∃ r : Fallback.JTensor,
        Fallback.TFSession.reduce_sum
          (some { m_shape := [2, 2], m_dtype := DataType.INT64, m_float_data := [],
                  m_int_data := [1, 2, 3, 4], m_string_data := [] }) [0] = .ok (some r) ∧
        r.rank = 0 ∧ r.dtype = DataType.INT64 ∧
        ∀ axes2 : List Int,
          Fallback.TFSession.reduce_sum
            (some { m_shape := [2, 2], m_dtype := DataType.INT64, m_float_data := [],
                    m_int_data := [1, 2, 3, 4], m_string_data := [] }) axes2
            = .ok (some r)) ∧
      ∀ t2 : Native.JTensor, Native.TFSession.reduce_sum (some t2) [0] = none) :=
  ⟨Or.inl rfl, reduce_sum_ignores_axes _ [0] (Or.inl rfl)⟩

theorem fallback_reduce_sum_returns (t : Fallback.JTensor) (axes : List Int) :
    ∃ result : Option Fallback.JTensor,
      Fallback.TFSession.reduce_sum (some t) axes = .ok result := by
  rcases fallback_reduce_sum_cases t axes with ⟨_, hr⟩ | ⟨_, hr⟩ | ⟨_, _, hr⟩
  · exact ⟨_, hr⟩
  · exact ⟨_, hr⟩
  · exact ⟨_, hr⟩

/-- C12: in both configurations `TFSession::reduce_sum(const JValue&)` throws
if and only if the operand holds no tensor pointer or holds a null one; on an
operand holding a non-null tensor `t` it returns, without throwing, the
`JValue` holding the result of the tensor overload `reduce_sum(t)` called with
the default `axes`. -/
theorem reduce_sum_JValue_spec (default_axes : List Int) :
    (∀ operand : Fallback.JValue,
      ((∃ e, Fallback.TFSession.reduce_sum_JValue default_axes operand = .error e) ↔
        ((∀ ptr, operand ≠ Fallback.JValue.tensor ptr) ∨
          operand = Fallback.JValue.tensor none)) ∧
      ∀ t : Fallback.JTensor, operand = Fallback.JValue.tensor (some t) →
        ∃ result : Option Fallback.JTensor,
          Fallback.TFSession.reduce_sum (some t) default_axes = .ok result ∧
          Fallback.TFSession.reduce_sum_JValue default_axes operand
            = .ok (Fallback.JValue.tensor result)) ∧
    (∀ operand : Native.JValue,
      ((∃ e, Native.TFSession.reduce_sum_JValue default_axes operand = .error e) ↔
        ((∀ ptr, operand ≠ Native.JValue.tensor ptr) ∨
          operand = Native.JValue.tensor none)) ∧
      ∀ t : Native.JTensor, operand = Native.JValue.tensor (some t) →
        Native.TFSession.reduce_sum_JValue default_axes operand
          = .ok (Native.JValue.tensor (Native.TFSession.reduce_sum (some t) default_axes))) := by
  constructor
  · intro operand
    cases operand with
    | other k =>
      refine ⟨⟨fun _ => Or.inl (fun ptr h => by cases h), fun _ => ⟨_, rfl⟩⟩, ?_⟩
      intro t h
      cases h
    | tensor ptr =>
      cases ptr with
      | none =>
        refine ⟨⟨fun _ => Or.inr rfl, fun _ => ⟨_, rfl⟩⟩, ?_⟩
        intro t h
        cases h
      | some t =>
        obtain ⟨result, hr⟩ := fallback_reduce_sum_returns t default_axes
        have hv : Fallback.TFSession.reduce_sum_JValue default_axes
            (Fallback.JValue.tensor (some t)) = .ok (Fallback.JValue.tensor result) := by
          simp [Fallback.TFSession.reduce_sum_JValue, hr]
        refine ⟨⟨?_, ?_⟩, ?_⟩
        · rintro ⟨e, he⟩
          rw [hv] at he
          cases he
        · rintro (h | h)
          · exact absurd rfl (h (some t))
          · cases h
        · intro t2 h
          cases h
          exact ⟨result, hr, hv⟩
  · intro operand
    cases operand with
    | other k =>
      refine ⟨⟨fun _ => Or.inl (fun ptr h => by cases h), fun _ => ⟨_, rfl⟩⟩, ?_⟩
      intro t h
      cases h
    | tensor ptr =>
      cases ptr with
      | none =>
        refine ⟨⟨fun _ => Or.inr rfl, fun _ => ⟨_, rfl⟩⟩, ?_⟩
        intro t h
        cases h
      | some t =>
        refine ⟨⟨?_, ?_⟩, ?_⟩
        · rintro ⟨e, he⟩
          simp [Native.TFSession.reduce_sum_JValue] at he
        · rintro (h | h)
          · exact absurd rfl (h (some t))
          · cases h
        · intro t2 h
          cases h
          rfl

/-! ## C13, C14: `JTensor::zeros` and `JTensor::copy` in the fallback configuration -/

theorem wrap_foldl_modEq (shape : List Int) :
    ∀ acc : Int,
      (shape.foldl (fun acc dim => wrap_int64 (acc * dim)) acc) % 18446744073709551616
        = (acc * shape.prod) % 18446744073709551616 := by
  induction shape with
  | nil => intro acc; simp
  | cons d rest ih =>
    intro acc
    simp only [List.foldl_cons, List.prod_cons]
    rw [ih]
    have h1 : Int.ModEq 18446744073709551616 (wrap_int64 (acc * d)) (acc * d) :=
      wrap_int64_emod (acc * d)
    have h2 := h1.mul_right rest.prod
    rw [mul_assoc acc d] at h2
    exact h2

/-- The accessor `size()` returns the mathematical product of the shape modulo `2^64`. -/
theorem fallback_size_eq (t : Fallback.JTensor) :
    t.size = (t.m_shape.prod % 18446744073709551616).toNat := by
  unfold Fallback.JTensor.size to_size_t
  rw [wrap_foldl_modEq, one_mul]

theorem fallback_zeros_eq (s : List Int) :
    Fallback.JTensor.zeros s =
      { m_shape := s, m_dtype := DataType.FLOAT64,
        m_float_data := List.replicate (s.prod % 18446744073709551616).toNat 0.0,
        m_int_data := [], m_string_data := [] } := by
  simp [Fallback.JTensor.zeros, Fallback.JTensor.new, vector_resize, size_t_product_eq]

/-- C13, as stated, fails: the dimensions `2^32, 2^32` are non-negative, their
product is `2^64`, and `zeros` returns a tensor with `size() == 0` and no
element. -/
theorem zeros_wraparound_counterexample :
    (∀ d ∈ ([4294967296, 4294967296] : List Int), 0 ≤ d ∧ d ≤ LLONG_MAX) ∧
    (Fallback.JTensor.zeros [4294967296, 4294967296]).shape = [4294967296, 4294967296] ∧
    (Fallback.JTensor.zeros [4294967296, 4294967296]).size = 0 ∧
    ((Fallback.JTensor.zeros [4294967296, 4294967296]).size : Int)
      ≠ ([4294967296, 4294967296] : List Int).prod ∧
    (Fallback.JTensor.zeros [4294967296, 4294967296]).get_flat_double = .ok [] :=
  ⟨by decide, rfl, by decide, by decide, rfl⟩

/-- C13, amended: in the fallback configuration, for every shape `s` of
non-negative dimensions (the empty shape included) whose product is below
`2^64`, `zeros(s)` is a `FLOAT64` tensor with `shape() == s`,
`size() == product(s)` and a `get_flat<double>()` of exactly `product(s)`
elements, every one of which is `0.0`. -/
theorem zeros_spec (s : List Int) (hnn : ∀ d ∈ s, 0 ≤ d)
    (hprod : s.prod < 18446744073709551616) :
    (Fallback.JTensor.zeros s).dtype = DataType.FLOAT64 ∧
    (Fallback.JTensor.zeros s).shape = s ∧
    ((Fallback.JTensor.zeros s).size : Int) = s.prod ∧
    ∃ flat : List Float, (Fallback.JTensor.zeros s).get_flat_double = .ok flat ∧
      (flat.length : Int) = s.prod ∧ ∀ x ∈ flat, x = 0.0 := by
  have h0 : 0 ≤ s.prod := List.prod_nonneg hnn
  have hmod : s.prod % 18446744073709551616 = s.prod := Int.emod_eq_of_lt h0 hprod
  rw [fallback_zeros_eq]
  refine ⟨rfl, rfl, ?_, _, rfl, ?_, ?_⟩
  · rw [fallback_size_eq]
    simp only [hmod]
    omega
  · simp only [List.length_replicate, hmod]
    omega
  · intro x hx
    exact List.eq_of_mem_replicate hx

/-- The amended C13 at the shape `[2, 3]`. -/
theorem zeros_spec_witness :
    (∀ d ∈ ([2, 3] : List Int), 0 ≤ d) ∧ ([2, 3] : List Int).prod < 18446744073709551616 ∧
    ((Fallback.JTensor.zeros [2, 3]).dtype = DataType.FLOAT64 ∧
      (Fallback.JTensor.zeros [2, 3]).shape = [2, 3] ∧
      ((Fallback.JTensor.zeros [2, 3]).size : Int) = ([2, 3] : List Int).prod ∧
      ∃ flat : List Float, (Fallback.JTensor.zeros [2, 3]).get_flat_double = .ok flat ∧
        (flat.length : Int) = ([2, 3] : List Int).prod ∧ ∀ x ∈ flat, x = 0.0) :=
  ⟨by decide, by decide, zeros_spec [2, 3] (by decide) (by decide)⟩

/-- C14: in the fallback configuration, for every tensor `t`, `copy(t)` has the
shape and the dtype of `t` and the same flat data (both `get_flat`
specializations give the same result on `copy(t)` as on `t`, and the three
buffers are equal), and `copy(copy(t))` equals `copy(t)`. -/
theorem copy_spec (t : Fallback.JTensor) :
    (Fallback.JTensor.copy t).shape = t.shape ∧
    (Fallback.JTensor.copy t).dtype = t.dtype ∧
    (Fallback.JTensor.copy t).get_flat_double = t.get_flat_double ∧
    (Fallback.JTensor.copy t).get_flat_long_long = t.get_flat_long_long ∧
    (Fallback.JTensor.copy t).m_float_data = t.m_float_data ∧
    (Fallback.JTensor.copy t).m_int_data = t.m_int_data ∧
    (Fallback.JTensor.copy t).m_string_data = t.m_string_data ∧
    Fallback.JTensor.copy (Fallback.JTensor.copy t) = Fallback.JTensor.copy t := by
  refine ⟨rfl, rfl, ?_, ?_, rfl, rfl, rfl, rfl⟩
  · simp [Fallback.JTensor.get_flat_double, Fallback.JTensor.copy]
  · simp [Fallback.JTensor.get_flat_long_long, Fallback.JTensor.copy]

/-! ## C15, C16: `from_data` and `get_flat` -/

/-- The native `from_data` on `long long` data, given the shape it stores and
the library shape built from it. -/
theorem native_from_data_long_long_of (d s sh : List Int)
    (tf : Native.tensorflow.TensorShape) (hs : init_shape d.length s = .ok sh)
    (hd : Native.tensorflow.TensorShape.add_dims Native.tensorflow.TensorShape.new sh = .ok tf)
    (hn : tf.num_elements = (d.length : Int)) :
    Native.JTensor.from_data_long_long d s = .ok
      { m_shape := sh, m_dtype := DataType.INT64, m_float_data := [], m_int_data := [],
        m_string_data := [],
        m_tf_tensor :=
          { m_dtype := Native.tensorflow.DataType.DT_INT64, m_shape := tf,
            m_double := [], m_int64 := d },
        m_has_tf_tensor := true } := by
  have hlen : (List.replicate tf.num_elements.toNat (0 : Int)).length = d.length := by
    simp [hn]
  simp [Native.JTensor.from_data_long_long, Native.JTensor.init_from_data_long_long, hs, hd,
    Native.JTensor.new, Native.tensorflow.Tensor.alloc, Native.tensorflow.Tensor.flat_int64,
    native_fill_loop_zero _ _ hlen]

/-- The native `from_data` on `double` data, given the shape it stores and the
library shape built from it. -/
theorem native_from_data_double_of (d : List Float) (s sh : List Int)
    (tf : Native.tensorflow.TensorShape) (hs : init_shape d.length s = .ok sh)
    (hd : Native.tensorflow.TensorShape.add_dims Native.tensorflow.TensorShape.new sh = .ok tf)
    (hn : tf.num_elements = (d.length : Int)) :
    Native.JTensor.from_data_double d s = .ok
      { m_shape := sh, m_dtype := DataType.FLOAT64, m_float_data := [], m_int_data := [],
        m_string_data := [],
        m_tf_tensor :=
          { m_dtype := Native.tensorflow.DataType.DT_DOUBLE, m_shape := tf,
            m_double := d, m_int64 := [] },
        m_has_tf_tensor := true } := by
  have hlen : (List.replicate tf.num_elements.toNat (0.0 : Float)).length = d.length := by
    simp [hn]
  simp [Native.JTensor.from_data_double, Native.JTensor.init_from_data_double, hs, hd,
    Native.JTensor.new, Native.tensorflow.Tensor.alloc, Native.tensorflow.Tensor.flat_double,
    native_fill_loop_zero _ _ hlen]

/-- The shape stored by `init_from_data` for an empty `shape` argument. -/
theorem init_shape_empty (len : Nat) (hmax : (len : Int) ≤ LLONG_MAX) :
    init_shape len [] = .ok (if len = 1 then [] else [(len : Int)]) := by
  unfold init_shape
  by_cases h : len = 1
  · simp [h]
  · simp [h, wrap_int64_of_is_int64 (len : Int) ⟨by omega, hmax⟩]

/-- The library shape built from the shape stored for an empty `shape` argument. -/
theorem native_add_dims_empty (len : Nat) (hmax : (len : Int) ≤ LLONG_MAX) :
    ∃ tf : Native.tensorflow.TensorShape,
      Native.tensorflow.TensorShape.add_dims Native.tensorflow.TensorShape.new
        (if len = 1 then [] else [(len : Int)]) = .ok tf ∧ tf.num_elements = (len : Int) := by
  by_cases h : len = 1
  · subst h
    exact ⟨_, rfl, rfl⟩
  · have h1 : ¬ LLONG_MAX < (len : Int) := by omega
    have h2 : ¬ (len : Int) < 0 := by omega
    refine ⟨{ dim_sizes := [(len : Int)], num_elements := (len : Int) }, ?_, rfl⟩
    simp [h, Native.tensorflow.TensorShape.add_dims, Native.tensorflow.TensorShape.AddDim,
      Native.tensorflow.TensorShape.new, h1, h2]

/-- C15: for both element types and in both configurations, `from_data` with
an empty shape yields a rank-0 tensor (`shape() == []`) when the data has
exactly one element and a rank-1 tensor with `shape() == [flat_data.size()]`
when it has more than one; in both cases `get_flat` gives the data back. -/
theorem from_data_empty_shape (dl : List Int) (dd : List Float)
    (hl : (dl.length : Int) ≤ LLONG_MAX) (hd : (dd.length : Int) ≤ LLONG_MAX) :
    (∃ t : Fallback.JTensor, Fallback.JTensor.from_data_long_long dl [] = .ok t ∧
        (dl.length = 1 → t.shape = [] ∧ t.rank = 0) ∧
        (1 < dl.length → t.shape = [(dl.length : Int)] ∧ t.rank = 1) ∧
        t.get_flat_long_long = .ok dl) ∧
    (∃ t : Fallback.JTensor, Fallback.JTensor.from_data_double dd [] = .ok t ∧
        (dd.length = 1 → t.shape = [] ∧ t.rank = 0) ∧
        (1 < dd.length → t.shape = [(dd.length : Int)] ∧ t.rank = 1) ∧
        t.get_flat_double = .ok dd) ∧
    (∃ t : Native.JTensor, Native.JTensor.from_data_long_long dl [] = .ok t ∧
        (dl.length = 1 → t.shape = [] ∧ t.rank = 0) ∧
        (1 < dl.length → t.shape = [(dl.length : Int)] ∧ t.rank = 1) ∧
        t.get_flat_long_long = .ok dl) ∧
    (∃ t : Native.JTensor, Native.JTensor.from_data_double dd [] = .ok t ∧
        (dd.length = 1 → t.shape = [] ∧ t.rank = 0) ∧
        (1 < dd.length → t.shape = [(dd.length : Int)] ∧ t.rank = 1) ∧
        t.get_flat_double = .ok dd) := by
  have hsl := init_shape_empty dl.length hl
  have hsd := init_shape_empty dd.length hd
  obtain ⟨tfl, htfl, hnl⟩ := native_add_dims_empty dl.length hl
  obtain ⟨tfd, htfd, hnd⟩ := native_add_dims_empty dd.length hd
  refine ⟨⟨{ m_shape := if dl.length = 1 then [] else [(dl.length : Int)],
             m_dtype := DataType.INT64, m_float_data := [], m_int_data := dl,
             m_string_data := [] }, ?_, ?_, ?_, ?_⟩,
    ⟨{ m_shape := if dd.length = 1 then [] else [(dd.length : Int)],
       m_dtype := DataType.FLOAT64, m_float_data := dd, m_int_data := [],
       m_string_data := [] }, ?_, ?_, ?_, ?_⟩,
    ⟨_, native_from_data_long_long_of dl [] _ tfl hsl htfl hnl, ?_, ?_, ?_⟩,
    ⟨_, native_from_data_double_of dd [] _ tfd hsd htfd hnd, ?_, ?_, ?_⟩⟩
  · simp [Fallback.JTensor.from_data_long_long, Fallback.JTensor.init_from_data_long_long, hsl,
      Fallback.JTensor.new]
  · intro h; simp [Fallback.JTensor.shape, Fallback.JTensor.rank, h]
  · intro h
    have h1 : dl.length ≠ 1 := by omega
    simp [Fallback.JTensor.shape, Fallback.JTensor.rank, h1]
  · simp [Fallback.JTensor.get_flat_long_long]
  · simp [Fallback.JTensor.from_data_double, Fallback.JTensor.init_from_data_double, hsd,
      Fallback.JTensor.new]
  · intro h; simp [Fallback.JTensor.shape, Fallback.JTensor.rank, h]
  · intro h
    have h1 : dd.length ≠ 1 := by omega
    simp [Fallback.JTensor.shape, Fallback.JTensor.rank, h1]
  · simp [Fallback.JTensor.get_flat_double]
  · intro h; simp [Native.JTensor.shape, Native.JTensor.rank, h]
  · intro h
    have h1 : dl.length ≠ 1 := by omega
    simp [Native.JTensor.shape, Native.JTensor.rank, h1]
  · simp [Native.JTensor.get_flat_long_long, Native.tensorflow.Tensor.flat_int64]
  · intro h; simp [Native.JTensor.shape, Native.JTensor.rank, h]
  · intro h
    have h1 : dd.length ≠ 1 := by omega
    simp [Native.JTensor.shape, Native.JTensor.rank, h1]
  · simp [Native.JTensor.get_flat_double, Native.tensorflow.Tensor.flat_double]

/-- The statement of C15 at the data `[7, 8]` and `[0.0]`. -/
theorem from_data_empty_shape_witness :
    ((([7, 8] : List Int).length : Nat) : Int) ≤ LLONG_MAX ∧
    ((([0.0] : List Float).length : Nat) : Int) ≤ LLONG_MAX ∧
    ((∃ t : Fallback.JTensor, Fallback.JTensor.from_data_long_long [7, 8] [] = .ok t ∧
        (([7, 8] : List Int).length = 1 → t.shape = [] ∧ t.rank = 0) ∧
        (1 < ([7, 8] : List Int).length →
          t.shape = [((([7, 8] : List Int).length : Nat) : Int)] ∧ t.rank = 1) ∧
        t.get_flat_long_long = .ok [7, 8]) ∧
    (∃ t : Fallback.JTensor, Fallback.JTensor.from_data_double [0.0] [] = .ok t ∧
        (([0.0] : List Float).length = 1 → t.shape = [] ∧ t.rank = 0) ∧
        (1 < ([0.0] : List Float).length →
          t.shape = [((([0.0] : List Float).length : Nat) : Int)] ∧ t.rank = 1) ∧
        t.get_flat_double = .ok [0.0]) ∧
    (∃ t : Native.JTensor, Native.JTensor.from_data_long_long [7, 8] [] = .ok t ∧
        (([7, 8] : List Int).length = 1 → t.shape = [] ∧ t.rank = 0) ∧
        (1 < ([7, 8] : List Int).length →
          t.shape = [((([7, 8] : List Int).length : Nat) : Int)] ∧ t.rank = 1) ∧
        t.get_flat_long_long = .ok [7, 8]) ∧
    (∃ t : Native.JTensor, Native.JTensor.from_data_double [0.0] [] = .ok t ∧
        (([0.0] : List Float).length = 1 → t.shape = [] ∧ t.rank = 0) ∧
        (1 < ([0.0] : List Float).length →
          t.shape = [((([0.0] : List Float).length : Nat) : Int)] ∧ t.rank = 1) ∧
        t.get_flat_double = .ok [0.0])) :=
  ⟨by decide, by decide, from_data_empty_shape [7, 8] [0.0] (by decide) (by decide)⟩

/-- The shape stored by `init_from_data` for a non-empty `shape` argument whose
product is the length of the data. -/
theorem init_shape_of_prod (len : Nat) (s : List Int) (hs : s ≠ [])
    (hprod : s.prod = (len : Int)) (hsz : (len : Int) < 18446744073709551616) :
    init_shape len s = .ok s := by
  have he : s.isEmpty = false := by
    cases s with
    | nil => exact absurd rfl hs
    | cons a l => rfl
  have hp : len = size_t_product s := by
    rw [size_t_product_eq, hprod]
    omega
  unfold init_shape
  simp [he, ← hp]

/-- C16: in the fallback configuration, for `long long` data `d` and a
non-empty shape `s` with `product(s) == d.size()`, `from_data(d, s)` has the
shape `s` and the dtype `INT64`, `get_flat<long long>()` returns `d` and
`get_flat<double>()` throws; symmetrically for `double` data; and on every
tensor `get_flat<long long>()` throws iff the dtype is not `INT64`,
`get_flat<double>()` throws iff the dtype is not `FLOAT64`. -/
theorem get_flat_inverts_from_data (d : List Int) (s : List Int) (dd : List Float)
    (sd : List Int) (hs : s ≠ []) (hprod : s.prod = (d.length : Int))
    (hsz : (d.length : Int) < 18446744073709551616)
    (hsd : sd ≠ []) (hprodd : sd.prod = (dd.length : Int))
    (hszd : (dd.length : Int) < 18446744073709551616) :
    (∃ t : Fallback.JTensor, Fallback.JTensor.from_data_long_long d s = .ok t ∧
        t.shape = s ∧ t.dtype = DataType.INT64 ∧ t.get_flat_long_long = .ok d ∧
        t.get_flat_double = .error Fault.runtime_error) ∧
    (∃ t : Fallback.JTensor, Fallback.JTensor.from_data_double dd sd = .ok t ∧
        t.shape = sd ∧ t.dtype = DataType.FLOAT64 ∧ t.get_flat_double = .ok dd ∧
        t.get_flat_long_long = .error Fault.runtime_error) ∧
    ∀ t : Fallback.JTensor,
      ((∃ e, t.get_flat_long_long = .error e) ↔ t.dtype ≠ DataType.INT64) ∧
      ((∃ e, t.get_flat_double = .error e) ↔ t.dtype ≠ DataType.FLOAT64) := by
  have h1 := init_shape_of_prod d.length s hs hprod hsz
  have h2 := init_shape_of_prod dd.length sd hsd hprodd hszd
  refine ⟨⟨{ m_shape := s, m_dtype := DataType.INT64, m_float_data := [], m_int_data := d,
             m_string_data := [] }, ?_, rfl, rfl, ?_, ?_⟩,
    ⟨{ m_shape := sd, m_dtype := DataType.FLOAT64, m_float_data := dd, m_int_data := [],
       m_string_data := [] }, ?_, rfl, rfl, ?_, ?_⟩, ?_⟩
  · simp [Fallback.JTensor.from_data_long_long, Fallback.JTensor.init_from_data_long_long, h1,
      Fallback.JTensor.new]
  · simp [Fallback.JTensor.get_flat_long_long]
  · simp [Fallback.JTensor.get_flat_double]
  · simp [Fallback.JTensor.from_data_double, Fallback.JTensor.init_from_data_double, h2,
      Fallback.JTensor.new]
  · simp [Fallback.JTensor.get_flat_double]
  · simp [Fallback.JTensor.get_flat_long_long]
  · intro t
    constructor
    · by_cases h : t.m_dtype = DataType.INT64
      · simp [Fallback.JTensor.get_flat_long_long, Fallback.JTensor.dtype, h]
      · simp [Fallback.JTensor.get_flat_long_long, Fallback.JTensor.dtype, h]
    · by_cases h : t.m_dtype = DataType.FLOAT64
      · simp [Fallback.JTensor.get_flat_double, Fallback.JTensor.dtype, h]
      · simp [Fallback.JTensor.get_flat_double, Fallback.JTensor.dtype, h]

/-- The statement of C16 at the data `[1, 2, 3, 4, 5, 6]` with shape `[2, 3]`
and `[0.0, 0.0]` with shape `[2]`. -/
theorem get_flat_inverts_from_data_witness :
    ([2, 3] : List Int) ≠ [] ∧
    ([2, 3] : List Int).prod = ((([1, 2, 3, 4, 5, 6] : List Int).length : Nat) : Int) ∧
    ((([1, 2, 3, 4, 5, 6] : List Int).length : Nat) : Int) < 18446744073709551616 ∧
    ([2] : List Int) ≠ [] ∧
    ([2] : List Int).prod = ((([0.0, 0.0] : List Float).length : Nat) : Int) ∧
    ((([0.0, 0.0] : List Float).length : Nat) : Int) < 18446744073709551616 ∧
    ((∃ t : Fallback.JTensor,
        Fallback.JTensor.from_data_long_long [1, 2, 3, 4, 5, 6] [2, 3] = .ok t ∧
        t.shape = [2, 3] ∧ t.dtype = DataType.INT64 ∧
        t.get_flat_long_long = .ok [1, 2, 3, 4, 5, 6] ∧
        t.get_flat_double = .error Fault.runtime_error) ∧
    (∃ t : Fallback.JTensor, Fallback.JTensor.from_data_double [0.0, 0.0] [2] = .ok t ∧
        t.shape = [2] ∧ t.dtype = DataType.FLOAT64 ∧ t.get_flat_double = .ok [0.0, 0.0] ∧
        t.get_flat_long_long = .error Fault.runtime_error) ∧
    ∀ t : Fallback.JTensor,
      ((∃ e, t.get_flat_long_long = .error e) ↔ t.dtype ≠ DataType.INT64) ∧
      ((∃ e, t.get_flat_double = .error e) ↔ t.dtype ≠ DataType.FLOAT64)) :=
  ⟨by decide, by decide, by decide, by decide, by decide, by decide,
    get_flat_inverts_from_data [1, 2, 3, 4, 5, 6] [2, 3] [0.0, 0.0] [2] (by decide) (by decide)
      (by decide) (by decide) (by decide) (by decide)⟩

/-! ## C17: `get_scalar` -/

/-- C17: in both configurations, `get_scalar<double>()` and
`get_scalar<long long>()` on a tensor of rank above 0 violate the rank-0
assertion and return no value; on the rank-0 tensor built by `scalar(v)` from
a `long long` `v`, `get_scalar<long long>()` returns `v`. -/
theorem get_scalar_spec (t : Fallback.JTensor) (tn : Native.JTensor) (v : Int)
    (ht : 0 < t.rank) (htn : 0 < tn.rank) :
    t.get_scalar_double = .error Fault.assertion_failed ∧
    t.get_scalar_long_long = .error Fault.assertion_failed ∧
    tn.get_scalar_double = .error Fault.assertion_failed ∧
    tn.get_scalar_long_long = .error Fault.assertion_failed ∧
    (∃ r : Fallback.JTensor, Fallback.JTensor.scalar_long_long v = .ok r ∧ r.rank = 0 ∧
        r.get_scalar_long_long = .ok v) ∧
    (∃ r : Native.JTensor, Native.JTensor.scalar_long_long v = .ok r ∧ r.rank = 0 ∧
        r.get_scalar_long_long = .ok v) := by
  have h1 : t.m_shape.isEmpty = false := by
    unfold Fallback.JTensor.rank at ht
    cases hs : t.m_shape with
    | nil => rw [hs] at ht; exact absurd ht (by decide)
    | cons a l => rfl
  have h2 : tn.m_shape.isEmpty = false := by
    unfold Native.JTensor.rank at htn
    cases hs : tn.m_shape with
    | nil => rw [hs] at htn; exact absurd htn (by decide)
    | cons a l => rfl
  refine ⟨?_, ?_, ?_, ?_,
    ⟨{ m_shape := [], m_dtype := DataType.INT64, m_float_data := [], m_int_data := [v],
       m_string_data := [] }, ?_, rfl, ?_⟩,
    ⟨_, native_from_data_long_long_of [v] [] [] Native.tensorflow.TensorShape.new rfl rfl rfl,
      rfl, ?_⟩⟩
  · simp [Fallback.JTensor.get_scalar_double, h1]
  · simp [Fallback.JTensor.get_scalar_long_long, h1]
  · simp [Native.JTensor.get_scalar_double, h2]
  · simp [Native.JTensor.get_scalar_long_long, h2]
  · simp [Fallback.JTensor.scalar_long_long, Fallback.JTensor.init_from_data_long_long,
      init_shape, Fallback.JTensor.new]
  · simp [Fallback.JTensor.get_scalar_long_long]
  · simp [Native.JTensor.get_scalar_long_long, Native.tensorflow.Tensor.dtype,
      Native.tensorflow.Tensor.scalar_int64, Native.tensorflow.TensorShape.new]

/-- The statement of C17 at the rank-1 tensors built from `[1, 2]` and at `v = 5`. -/
theorem get_scalar_spec_witness :
    0 < Fallback.JTensor.rank
          { m_shape := [2], m_dtype := DataType.INT64, m_float_data := [],
            m_int_data := [1, 2], m_string_data := [] } ∧
    0 < Native.JTensor.rank
          { m_shape := [2], m_dtype := DataType.INT64, m_float_data := [], m_int_data := [],
            m_string_data := [],
            m_tf_tensor :=
              { m_dtype := Native.tensorflow.DataType.DT_INT64,
                m_shape := { dim_sizes := [2], num_elements := 2 },
                m_double := [], m_int64 := [1, 2] },
            m_has_tf_tensor := true } ∧
    (Fallback.JTensor.get_scalar_double
        { m_shape := [2], m_dtype := DataType.INT64, m_float_data := [],
          m_int_data := [1, 2], m_string_data := [] } = .error Fault.assertion_failed ∧
    Fallback.JTensor.get_scalar_long_long
        { m_shape := [2], m_dtype := DataType.INT64, m_float_data := [],
          m_int_data := [1, 2], m_string_data := [] } = .error Fault.assertion_failed ∧
    Native.JTensor.get_scalar_double
        { m_shape := [2], m_dtype := DataType.INT64, m_float_data := [], m_int_data := [],
          m_string_data := [],
          m_tf_tensor :=
            { m_dtype := Native.tensorflow.DataType.DT_INT64,
              m_shape := { dim_sizes := [2], num_elements := 2 },
              m_double := [], m_int64 := [1, 2] },
          m_has_tf_tensor := true } = .error Fault.assertion_failed ∧
    Native.JTensor.get_scalar_long_long
        { m_shape := [2], m_dtype := DataType.INT64, m_float_data := [], m_int_data := [],
          m_string_data := [],
          m_tf_tensor :=
            { m_dtype := Native.tensorflow.DataType.DT_INT64,
              m_shape := { dim_sizes := [2], num_elements := 2 },
              m_double := [], m_int64 := [1, 2] },
          m_has_tf_tensor := true } = .error Fault.assertion_failed ∧
    (∃ r : Fallback.JTensor, Fallback.JTensor.scalar_long_long 5 = .ok r ∧ r.rank = 0 ∧
        r.get_scalar_long_long = .ok 5) ∧
    (∃ r : Native.JTensor, Native.JTensor.scalar_long_long 5 = .ok r ∧ r.rank = 0 ∧
        r.get_scalar_long_long = .ok 5)) :=
  ⟨by decide, by decide, get_scalar_spec _ _ 5 (by decide) (by decide)⟩

/-! ## C18: rank 0 and the element count of the storage -/

theorem init_shape_nil (len : Nat) (s : List Int) (h : init_shape len s = .ok []) :
    len = 1 := by
  unfold init_shape at h
  cases c1 : s.isEmpty with
  | true =>
    simp only [c1, if_true] at h
    by_cases c2 : len = 1
    · exact c2
    · rw [if_neg c2] at h
      simp at h
  | false =>
    simp only [c1, Bool.false_eq_true, if_false] at h
    by_cases c3 : len = size_t_product s
    · rw [if_pos c3] at h
      simp only [Except.ok.injEq] at h
      subst h
      simp at c1
    · rw [if_neg c3] at h
      simp at h

theorem fallback_from_data_double_ok (d : List Float) (s : List Int) (t : Fallback.JTensor)
    (ht : Fallback.JTensor.from_data_double d s = .ok t) :
    t.m_dtype = DataType.FLOAT64 ∧ t.m_float_data = d ∧ t.m_int_data = [] ∧
      init_shape d.length s = .ok t.m_shape := by
  unfold Fallback.JTensor.from_data_double Fallback.JTensor.init_from_data_double at ht
  cases hs : init_shape d.length s with
  | error e => simp [hs] at ht
  | ok sh =>
    simp only [hs, Except.ok.injEq] at ht
    subst ht
    exact ⟨rfl, rfl, rfl, rfl⟩

theorem rank_zero_iff_nil (l : List Int) : l.length = 0 ↔ l = [] := List.length_eq_zero

/-- In the fallback configuration a constructible tensor of rank 0 stores one element. -/
theorem fallback_constructible_rank_zero (t : Fallback.JTensor) (h : Fallback.Constructible t) :
    t.rank = 0 → t.storage_count = 1 := by
  induction h with
  | zeros s hs =>
    intro hr
    rw [fallback_zeros_eq] at hr ⊢
    have hnil : s = [] := (rank_zero_iff_nil s).mp hr
    subst hnil
    rfl
  | scalar_double v t h =>
    intro _
    obtain ⟨h1, h2, _, _⟩ := fallback_from_data_double_ok [v] [] t h
    simp [Fallback.JTensor.storage_count, h1, h2]
  | scalar_long_long v t h =>
    intro _
    obtain ⟨h1, h2, _, _⟩ := fallback_from_data_long_long_ok [v] [] t h
    simp [Fallback.JTensor.storage_count, h1, h2]
  | from_data_double d s t h =>
    intro hr
    obtain ⟨h1, h2, _, h4⟩ := fallback_from_data_double_ok d s t h
    have hnil : t.m_shape = [] := (rank_zero_iff_nil _).mp hr
    rw [hnil] at h4
    simp [Fallback.JTensor.storage_count, h1, h2, init_shape_nil _ _ h4]
  | from_data_long_long d s t h =>
    intro hr
    obtain ⟨h1, h2, _, h4⟩ := fallback_from_data_long_long_ok d s t h
    have hnil : t.m_shape = [] := (rank_zero_iff_nil _).mp hr
    rw [hnil] at h4
    simp [Fallback.JTensor.storage_count, h1, h2, init_shape_nil _ _ h4]
  | copy t _ ih =>
    intro hr
    exact ih hr

/-- What a successful native `from_data` on `double` data leaves in the tensor. -/
theorem native_from_data_double_ok (d : List Float) (s : List Int) (t : Native.JTensor)
    (ht : Native.JTensor.from_data_double d s = .ok t) :
    t.m_dtype = DataType.FLOAT64 ∧ t.m_has_tf_tensor = true ∧
      t.m_tf_tensor.m_dtype = Native.tensorflow.DataType.DT_DOUBLE ∧
      t.m_tf_tensor.m_double = d ∧ t.m_tf_tensor.m_shape.dim_sizes = t.m_shape ∧
      t.m_tf_tensor.m_shape.num_elements = (d.length : Int) ∧
      t.m_shape.prod = (d.length : Int) ∧ (d.length : Int) ≤ LLONG_MAX ∧
      init_shape d.length s = .ok t.m_shape := by
  unfold Native.JTensor.from_data_double Native.JTensor.init_from_data_double at ht
  cases hs : init_shape d.length s with
  | error e => simp [hs] at ht
  | ok sh =>
    simp only [hs] at ht
    cases hd : Native.tensorflow.TensorShape.add_dims Native.tensorflow.TensorShape.new sh with
    | error e => simp [hd] at ht
    | ok tf =>
      obtain ⟨e1, e2, e3, e4⟩ := native_add_dims_ok sh _ tf hd rfl (by decide) (by decide)
      have e1 : tf.dim_sizes = sh := by simpa [Native.tensorflow.TensorShape.new] using e1
      simp only [hd, Native.tensorflow.Tensor.alloc, Native.tensorflow.Tensor.flat_double,
        if_true] at ht
      by_cases hshort : (List.replicate tf.num_elements.toNat (0.0 : Float)).length < d.length
      · rw [native_fill_loop_short d _ hshort] at ht
        simp at ht
      · have hlen : (d.length : Int) ≤ LLONG_MAX := by
          simp only [List.length_replicate] at hshort
          omega
        have hp : sh.prod = (d.length : Int) :=
          init_shape_prod d.length s sh hs hlen (by rw [← e1, ← e2]; exact e3)
            (by rw [← e1, ← e2]; exact e4)
        have hn : tf.num_elements = (d.length : Int) := by rw [e2, e1, hp]
        have hfill : Native.JTensor.fill_loop d 0
            (List.replicate tf.num_elements.toNat (0.0 : Float)) = .ok d :=
          native_fill_loop_zero _ _ (by simp [hn])
        simp only [hfill, Except.ok.injEq] at ht
        subst ht
        exact ⟨rfl, rfl, rfl, rfl, e1, hn, hp, hlen, rfl⟩

/-- The native `zeros` stores its argument as the shape, when it returns. -/
theorem native_zeros_shape (s : List Int) (t : Native.JTensor)
    (h : Native.JTensor.zeros s = .ok t) : t.m_shape = s := by
  unfold Native.JTensor.zeros at h
  cases hd : Native.tensorflow.TensorShape.add_dims Native.tensorflow.TensorShape.new s with
  | error e => simp [hd] at h
  | ok tf =>
    simp only [hd, Native.tensorflow.Tensor.alloc, Native.tensorflow.Tensor.flat_double,
      if_true] at h
    cases hz : Native.JTensor.zero_loop 0 (List.replicate tf.num_elements.toNat (0.0 : Float)) with
    | error e => simp [hz] at h
    | ok flat =>
      simp only [hz, Except.ok.injEq] at h
      subst h
      rfl

/-- The native `zeros` on the empty shape. -/
theorem native_zeros_nil :
    Native.JTensor.zeros [] = .ok
      { m_shape := [], m_dtype := DataType.FLOAT64, m_float_data := [], m_int_data := [],
        m_string_data := [],
        m_tf_tensor :=
          { m_dtype := Native.tensorflow.DataType.DT_DOUBLE,
            m_shape := Native.tensorflow.TensorShape.new,
            m_double := [0.0], m_int64 := [] },
        m_has_tf_tensor := true } := by
  have hz : Native.JTensor.zero_loop 0 [(0.0 : Float)] = .ok [0.0] := by
    rw [Native.JTensor.zero_loop]
    have h0 : ¬ (((0 : Nat) : Int) = INT_MAX) := by decide
    simp only [List.length_singleton, Nat.lt_one_iff, if_true, h0, if_false, List.set_cons_zero]
    rw [Native.JTensor.zero_loop]
    simp
  have hr : List.replicate (Native.tensorflow.TensorShape.new.num_elements.toNat) (0.0 : Float)
      = [0.0] := rfl
  simp [Native.JTensor.zeros, Native.tensorflow.TensorShape.add_dims,
    Native.tensorflow.Tensor.alloc, Native.tensorflow.Tensor.flat_double, hr, hz,
    Native.JTensor.new]

/-- In the native configuration a constructible tensor of rank 0 stores one element. -/
theorem native_constructible_rank_zero (t : Native.JTensor) (h : Native.Constructible t) :
    t.rank = 0 → t.storage_count = 1 := by
  induction h with
  | zeros s t hs h =>
    intro hr
    have hshape := native_zeros_shape s t h
    have hnil : s = [] := by
      unfold Native.JTensor.rank at hr
      rw [hshape] at hr
      exact (rank_zero_iff_nil s).mp hr
    subst hnil
    rw [native_zeros_nil] at h
    simp only [Except.ok.injEq] at h
    subst h
    rfl
  | scalar_double v t h =>
    intro _
    obtain ⟨_, h2, h3, h4, _⟩ := native_from_data_double_ok [v] [] t h
    simp [Native.JTensor.storage_count, Native.tensorflow.Tensor.dtype, h2, h3, h4]
  | scalar_long_long v t h =>
    intro _
    obtain ⟨_, h2, h3, h4, _⟩ := native_from_data_long_long_ok [v] [] t h
    simp [Native.JTensor.storage_count, Native.tensorflow.Tensor.dtype, h2, h3, h4]
  | from_data_double d s t h =>
    intro hr
    obtain ⟨_, h2, h3, h4, _, _, h7, _, _⟩ := native_from_data_double_ok d s t h
    have hnil : t.m_shape = [] := (rank_zero_iff_nil _).mp hr
    rw [hnil] at h7
    have hlen : d.length = 1 := by
      simp only [List.prod_nil] at h7
      exact_mod_cast h7.symm
    simp [Native.JTensor.storage_count, Native.tensorflow.Tensor.dtype, h2, h3, h4, hlen]
  | from_data_long_long d s t h =>
    intro hr
    obtain ⟨_, h2, h3, h4, _, _, h7, _, _⟩ := native_from_data_long_long_ok d s t h
    have hnil : t.m_shape = [] := (rank_zero_iff_nil _).mp hr
    rw [hnil] at h7
    have hlen : d.length = 1 := by
      simp only [List.prod_nil] at h7
      exact_mod_cast h7.symm
    simp [Native.JTensor.storage_count, Native.tensorflow.Tensor.dtype, h2, h3, h4, hlen]
  | copy t c _ h ih =>
    intro hr
    unfold Native.JTensor.copy at h
    by_cases hh : t.m_has_tf_tensor = true
    · by_cases hdt : t.m_tf_tensor.m_dtype = Native.tensorflow.DataType.DT_DOUBLE
      · simp only [hh, if_true, Native.tensorflow.Tensor.alloc, Native.tensorflow.Tensor.dtype,
          Native.tensorflow.Tensor.flat_double, hdt, Except.ok.injEq] at h
        subst h
        have h1 := ih hr
        simpa [Native.JTensor.storage_count, Native.tensorflow.Tensor.dtype, hh, hdt] using h1
      · simp [hh, Native.tensorflow.Tensor.alloc, Native.tensorflow.Tensor.dtype,
          Native.tensorflow.Tensor.flat_double, hdt] at h
    · have hf : t.m_has_tf_tensor = false := by simpa using hh
      simp only [hf, Bool.false_eq_true, if_false, Except.ok.injEq] at h
      subst h
      have h1 := ih hr
      simp [Native.JTensor.storage_count, hf] at h1

/-- C18, as stated, fails: the tensor built by `from_data` from `[5]` with
shape `[1]` (the size assertion holds) stores exactly one element and has
rank 1, so that rank 0 is not equivalent to storing one element. -/
theorem rank_zero_iff_one_element_counterexample :
    ∃ t : Fallback.JTensor, Fallback.JTensor.from_data_long_long [5] [1] = .ok t ∧
      Fallback.Constructible t ∧ t.storage_count = 1 ∧ t.rank = 1 ∧
      ¬ (t.rank = 0 ↔ t.storage_count = 1) :=
  ⟨_, rfl, Fallback.Constructible.from_data_long_long [5] [1] _ rfl, rfl, rfl, by decide⟩

/-- C18, amended: in both configurations, for every tensor constructed through
the public constructors (`zeros` with non-negative dimensions, `scalar`,
`from_data` whose size assertion holds, `copy`), `rank() == 0` implies that the
active storage holds exactly one element. -/
theorem rank_zero_one_element (t : Fallback.JTensor) (tn : Native.JTensor)
    (h : Fallback.Constructible t) (hn : Native.Constructible tn) :
    (t.rank = 0 → t.storage_count = 1) ∧ (tn.rank = 0 → tn.storage_count = 1) :=
  ⟨fallback_constructible_rank_zero t h, native_constructible_rank_zero tn hn⟩

/-- The amended C18 at the tensors built by `scalar(5)` in the two configurations. -/
theorem rank_zero_one_element_witness :
    Fallback.Constructible
        { m_shape := [], m_dtype := DataType.INT64, m_float_data := [], m_int_data := [5],
          m_string_data := [] } ∧
    Native.Constructible
        { m_shape := [], m_dtype := DataType.INT64, m_float_data := [], m_int_data := [],
          m_string_data := [],
          m_tf_tensor :=
            { m_dtype := Native.tensorflow.DataType.DT_INT64,
              m_shape := Native.tensorflow.TensorShape.new,
              m_double := [], m_int64 := [5] },
          m_has_tf_tensor := true } ∧
    ((Fallback.JTensor.rank
          { m_shape := [], m_dtype := DataType.INT64, m_float_data := [], m_int_data := [5],
            m_string_data := [] } = 0 →
        Fallback.JTensor.storage_count
          { m_shape := [], m_dtype := DataType.INT64, m_float_data := [], m_int_data := [5],
            m_string_data := [] } = 1) ∧
      (Native.JTensor.rank
          { m_shape := [], m_dtype := DataType.INT64, m_float_data := [], m_int_data := [],
            m_string_data := [],
            m_tf_tensor :=
              { m_dtype := Native.tensorflow.DataType.DT_INT64,
                m_shape := Native.tensorflow.TensorShape.new,
                m_double := [], m_int64 := [5] },
            m_has_tf_tensor := true } = 0 →
        Native.JTensor.storage_count
          { m_shape := [], m_dtype := DataType.INT64, m_float_data := [], m_int_data := [],
            m_string_data := [],
            m_tf_tensor :=
              { m_dtype := Native.tensorflow.DataType.DT_INT64,
                m_shape := Native.tensorflow.TensorShape.new,
                m_double := [], m_int64 := [5] },
            m_has_tf_tensor := true } = 1)) :=
  ⟨Fallback.Constructible.scalar_long_long 5 _ rfl,
    Native.Constructible.scalar_long_long 5 _
      (native_from_data_long_long_of [5] [] [] Native.tensorflow.TensorShape.new rfl rfl rfl),
    rank_zero_one_element _ _ (Fallback.Constructible.scalar_long_long 5 _ rfl)
      (Native.Constructible.scalar_long_long 5 _
        (native_from_data_long_long_of [5] [] [] Native.tensorflow.TensorShape.new rfl rfl rfl))⟩

/-! ## C19: the size invariant in the fallback configuration -/

/-- The shape stored by `init_from_data` has, modulo `2^64`, the element count
of the data as its product. -/
theorem init_shape_prod_mod (len : Nat) (s sh : List Int) (h : init_shape len s = .ok sh)
    (hlen : (len : Int) < 18446744073709551616) :
    (sh.prod % 18446744073709551616).toNat = len := by
  unfold init_shape at h
  cases c1 : s.isEmpty with
  | true =>
    simp only [c1, if_true] at h
    by_cases c2 : len = 1
    · rw [if_pos c2] at h
      simp only [Except.ok.injEq] at h
      subst h; subst c2
      simp only [List.prod_nil]
      decide
    · rw [if_neg c2] at h
      simp only [Except.ok.injEq] at h
      subst h
      rw [List.prod_singleton, wrap_int64_emod]
      omega
  | false =>
    simp only [c1, Bool.false_eq_true, if_false] at h
    by_cases c3 : len = size_t_product s
    · rw [if_pos c3] at h
      simp only [Except.ok.injEq] at h
      subst h
      rw [size_t_product_eq] at c3
      exact c3.symm
    · rw [if_neg c3] at h
      simp at h

/-- On every tensor `size()` is the product of the shape modulo `2^64`. -/
theorem fallback_size_cast (t : Fallback.JTensor) :
    (t.size : Int) = t.shape.prod % 18446744073709551616 := by
  rw [fallback_size_eq]
  exact Int.toNat_of_nonneg (Int.emod_nonneg _ (by decide))

theorem fallback_from_data_long_long_invariant (d s : List Int) (t : Fallback.JTensor)
    (hlen : (d.length : Int) < 18446744073709551616)
    (h : Fallback.JTensor.from_data_long_long d s = .ok t) : t.size_invariant := by
  obtain ⟨h1, h2, _, h4⟩ := fallback_from_data_long_long_ok d s t h
  refine ⟨?_, fallback_size_cast t⟩
  rw [fallback_size_eq, init_shape_prod_mod _ _ _ h4 hlen]
  simp [Fallback.JTensor.storage_count, h1, h2]

theorem fallback_from_data_double_invariant (d : List Float) (s : List Int)
    (t : Fallback.JTensor) (hlen : (d.length : Int) < 18446744073709551616)
    (h : Fallback.JTensor.from_data_double d s = .ok t) : t.size_invariant := by
  obtain ⟨h1, h2, _, h4⟩ := fallback_from_data_double_ok d s t h
  refine ⟨?_, fallback_size_cast t⟩
  rw [fallback_size_eq, init_shape_prod_mod _ _ _ h4 hlen]
  simp [Fallback.JTensor.storage_count, h1, h2]

theorem fallback_reduce_sum_invariant (t r : Fallback.JTensor) (axes : List Int)
    (h : Fallback.TFSession.reduce_sum (some t) axes = .ok (some r)) : r.size_invariant := by
  rcases fallback_reduce_sum_cases t axes with ⟨_, hr⟩ | ⟨_, hr⟩ | ⟨_, _, hr⟩
  · rw [hr] at h
    simp only [Except.ok.injEq, Option.some.injEq] at h
    subst h
    exact ⟨rfl, rfl⟩
  · rw [hr] at h
    simp only [Except.ok.injEq, Option.some.injEq] at h
    subst h
    exact ⟨rfl, rfl⟩
  · rw [hr] at h
    simp at h

theorem fallback_zeros_invariant (s : List Int) : (Fallback.JTensor.zeros s).size_invariant := by
  refine ⟨?_, fallback_size_cast _⟩
  rw [fallback_size_eq, fallback_zeros_eq]
  simp [Fallback.JTensor.storage_count]

/-- C19, as stated, fails: `zeros` of the non-negative dimensions `2^32, 2^32`
has `size() == 0`, equal to the number of stored elements, while the product
of its shape is `2^64`. -/
theorem size_product_wraparound_counterexample :
    (∀ d ∈ ([4294967296, 4294967296] : List Int), 0 ≤ d ∧ d ≤ LLONG_MAX) ∧
    (Fallback.JTensor.zeros [4294967296, 4294967296]).size
      = (Fallback.JTensor.zeros [4294967296, 4294967296]).storage_count ∧
    (Fallback.JTensor.zeros [4294967296, 4294967296]).size = 0 ∧
    (Fallback.JTensor.zeros [4294967296, 4294967296]).shape.prod = 18446744073709551616 ∧
    ((Fallback.JTensor.zeros [4294967296, 4294967296]).size : Int)
      ≠ (Fallback.JTensor.zeros [4294967296, 4294967296]).shape.prod :=
  ⟨by decide, by decide, by decide, by decide, by decide⟩

/-- C19, amended: in the fallback configuration `size()`, which is
`product(shape())` modulo `2^64` (and `product(shape())` itself whenever that
product lies in `[0, 2^64)`), equals the number of elements in the buffer
selected by the dtype.  This holds for `zeros(s)`, `scalar(v)`, `from_data(d, s)`
whenever the construction assertion passes (empty shapes included) and
`iota(n)` for `n >= 0`, and it is preserved by `copy` and by the results of
`add`, `subtract`, `multiply`, `divide`, `reshape`, `transpose` and
`reduce_sum`. -/
theorem size_invariant_reachable :
    (∀ s : List Int, (Fallback.JTensor.zeros s).size_invariant) ∧
    (∀ v : Float, ∃ t, Fallback.JTensor.scalar_double v = .ok t ∧ t.size_invariant) ∧
    (∀ v : Int, ∃ t, Fallback.JTensor.scalar_long_long v = .ok t ∧ t.size_invariant) ∧
    (∀ (d : List Float) (s : List Int) (t : Fallback.JTensor),
      (d.length : Int) < 18446744073709551616 →
      Fallback.JTensor.from_data_double d s = .ok t → t.size_invariant) ∧
    (∀ (d s : List Int) (t : Fallback.JTensor),
      (d.length : Int) < 18446744073709551616 →
      Fallback.JTensor.from_data_long_long d s = .ok t → t.size_invariant) ∧
    (∀ t : Fallback.JTensor, t.size_invariant → (Fallback.JTensor.copy t).size_invariant) ∧
    (∀ n : Int, 0 ≤ n → n ≤ LLONG_MAX →
      ∃ t, Fallback.TFSession.iota n = .ok t ∧ t.size_invariant) ∧
    (∀ a b r : Fallback.JTensor, a.size_invariant →
      Fallback.TFSession.add (some a) (some b) = some r → r.size_invariant) ∧
    (∀ a b r : Fallback.JTensor, a.size_invariant →
      Fallback.TFSession.subtract (some a) (some b) = some r → r.size_invariant) ∧
    (∀ a b r : Fallback.JTensor, a.size_invariant →
      Fallback.TFSession.multiply (some a) (some b) = some r → r.size_invariant) ∧
    (∀ a b r : Fallback.JTensor, a.size_invariant →
      Fallback.TFSession.divide (some a) (some b) = some r → r.size_invariant) ∧
    (∀ (t r : Fallback.JTensor) (new_shape : List Int), t.size_invariant →
      Fallback.TFSession.reshape (some t) new_shape = some r → r.size_invariant) ∧
    (∀ t r : Fallback.JTensor, t.size_invariant →
      Fallback.TFSession.transpose (some t) = .ok r → r.size_invariant) ∧
    (∀ (t r : Fallback.JTensor) (axes : List Int),
      Fallback.TFSession.reduce_sum (some t) axes = .ok (some r) → r.size_invariant) ∧
    (∀ t : Fallback.JTensor, t.size_invariant → 0 ≤ t.shape.prod →
      t.shape.prod < 18446744073709551616 →
      (t.size : Int) = t.shape.prod ∧ (t.storage_count : Int) = t.shape.prod) := by
  have hbin : ∀ (a b r : Fallback.JTensor) (name : String), a.size_invariant →
      Fallback.TFSession.stub_binary_op (some a) (some b) name = some r → r.size_invariant := by
    intro a b r name ha h
    simp only [Fallback.TFSession.stub_binary_op, Option.some.injEq] at h
    rw [← h, fallback_copy_eq]
    exact ha
  refine ⟨fallback_zeros_invariant, ?_, ?_, ?_, ?_, ?_, ?_, ?_, ?_, ?_, ?_, ?_, ?_, ?_, ?_⟩
  · intro v
    exact ⟨{ m_shape := [], m_dtype := DataType.FLOAT64, m_float_data := [v], m_int_data := [],
             m_string_data := [] }, rfl, rfl, rfl⟩
  · intro v
    exact ⟨{ m_shape := [], m_dtype := DataType.INT64, m_float_data := [], m_int_data := [v],
             m_string_data := [] }, rfl, rfl, rfl⟩
  · intro d s t hlen h
    exact fallback_from_data_double_invariant d s t hlen h
  · intro d s t hlen h
    exact fallback_from_data_long_long_invariant d s t hlen h
  · intro t ht
    rw [fallback_copy_eq]
    exact ht
  · intro n h0 h1
    refine ⟨_, fallback_iota_eq n h0 h1, ?_⟩
    refine fallback_from_data_long_long_invariant
      ((List.range n.toNat).map (fun (j : Nat) => (j : Int))) [n] _ ?_ ?_
    · simp only [List.length_map, List.length_range]
      unfold LLONG_MAX at h1
      omega
    · have h := fallback_iota_eq n h0 h1
      unfold Fallback.TFSession.iota at h
      rw [iota_loop_zero] at h
      exact h
  · intro a b r ha h
    exact hbin a b r _ ha h
  · intro a b r ha h
    exact hbin a b r _ ha h
  · intro a b r ha h
    exact hbin a b r _ ha h
  · intro a b r ha h
    exact hbin a b r _ ha h
  · intro t r new_shape ht h
    rw [fallback_reshape_eq_some t r new_shape h]
    exact ht
  · intro t r ht h
    simp only [Fallback.TFSession.transpose, Except.ok.injEq] at h
    rw [← h, fallback_copy_eq]
    exact ht
  · intro t r axes h
    exact fallback_reduce_sum_invariant t r axes h
  · intro t ht h0 h1
    have hs : (t.size : Int) = t.shape.prod := by
      rw [ht.2]
      exact Int.emod_eq_of_lt h0 h1
    refine ⟨hs, ?_⟩
    rw [← ht.1]
    exact hs

/-! ## C20: `JTensor::print` in the fallback configuration -/

theorem intercalate_go_append (sep : String) (l : List String) :
    ∀ a b : String, String.intercalate.go (a ++ b) sep l = a ++ String.intercalate.go b sep l := by
  induction l with
  | nil => intro a b; rfl
  | cons x rest ih =>
    intro a b
    simp only [String.intercalate.go]
    rw [String.append_assoc a b sep, String.append_assoc a (b ++ sep) x]
    exact ih a (b ++ sep ++ x)

theorem print_loop_succ {α : Type} (fmt : α → String) (l : List α) :
    ∀ (i : Nat) (os : String),
      Fallback.JTensor.print_loop fmt (i + 1) l os
        = String.intercalate.go os ", " (l.map fmt) := by
  induction l with
  | nil => intro i os; rfl
  | cons x rest ih =>
    intro i os
    simp only [Fallback.JTensor.print_loop, List.map_cons, String.intercalate.go]
    have hpos : i + 1 > 0 := Nat.succ_pos i
    simp only [hpos, if_true]
    exact ih (i + 1) _

/-- The separator loop of `print` appends the elements joined by `", "`. -/
theorem print_loop_zero {α : Type} (fmt : α → String) (l : List α) (os : String) :
    Fallback.JTensor.print_loop fmt 0 l os = os ++ ", ".intercalate (l.map fmt) := by
  cases l with
  | nil => simp [Fallback.JTensor.print_loop, String.intercalate]
  | cons x rest =>
    simp only [Fallback.JTensor.print_loop, List.map_cons, String.intercalate]
    have h0 : ¬ (0 > 0) := by decide
    simp only [h0, if_false]
    rw [print_loop_succ, ← intercalate_go_append]

/-- The shape stored by `init_from_data`, when it has rank 1, names the length of the data. -/
theorem init_shape_rank_one (len : Nat) (s sh : List Int) (h : init_shape len s = .ok sh)
    (hrank : sh.length = 1) (hlen : (len : Int) ≤ LLONG_MAX) (hs : ∀ k ∈ s, is_int64 k) :
    sh = [(len : Int)] := by
  unfold init_shape at h
  cases c1 : s.isEmpty with
  | true =>
    simp only [c1, if_true] at h
    by_cases c2 : len = 1
    · rw [if_pos c2] at h
      simp only [Except.ok.injEq] at h
      subst h
      simp at hrank
    · rw [if_neg c2] at h
      simp only [Except.ok.injEq] at h
      subst h
      rw [wrap_int64_of_is_int64 _ ⟨by omega, hlen⟩]
  | false =>
    simp only [c1, Bool.false_eq_true, if_false] at h
    by_cases c3 : len = size_t_product s
    · rw [if_pos c3] at h
      simp only [Except.ok.injEq] at h
      subst h
      match s, hrank, hs, c3 with
      | [k], _, hs, c3 =>
        have hk := hs k (List.mem_singleton.mpr rfl)
        unfold is_int64 LLONG_MAX at hk
        unfold LLONG_MAX at hlen
        unfold size_t_product size_t_mul to_size_t at c3
        simp only [List.foldl_cons, List.foldl_nil, one_mul] at c3
        have : k = (len : Int) := by omega
        rw [this]
    · rw [if_neg c3] at h
      simp at h

/-- The data part written for a tensor that is neither a scalar nor a rank-1
tensor of at most ten elements. -/
theorem print_data_large (fmt_double : Float → String) (t : Fallback.JTensor) (os : String)
    (hne : t.m_shape ≠ [])
    (hbig : ¬ (t.m_shape.length = 1 ∧ t.m_shape.headD 0 ≤ 10)) :
    t.print_data fmt_double os = .ok (os ++ "<tensor of size " ++ toString t.size ++ ">") := by
  have he : t.m_shape.isEmpty = false := by
    cases hs : t.m_shape with
    | nil => exact absurd hs hne
    | cons a l => rfl
  unfold Fallback.JTensor.print_data
  simp only [he, Bool.false_eq_true, if_false, hbig]

/-- The whole text written by `print` is the header followed by the data part and `")"`. -/
theorem print_eq (fmt_double : Float → String) (t : Fallback.JTensor) (os data : String)
    (hdt : t.m_dtype = DataType.INT64)
    (h : ∀ os2 : String, t.print_data fmt_double os2 = .ok (os2 ++ data)) :
    t.print fmt_double os = .ok (os ++ "JTensor(shape=["
      ++ ", ".intercalate (t.m_shape.map (fun (d : Int) => toString d))
      ++ "], dtype=" ++ "INT64" ++ ", data=" ++ data ++ ")") := by
  unfold Fallback.JTensor.print
  simp only [hdt, h, print_loop_zero]

/-- C20: in the fallback configuration, for every rank-1 `INT64` tensor built
by `from_data` from `n` elements, the data part of the text written by `print`
is `[`, the `n` elements in order separated by `", "`, and `]` when `n <= 10`,
and is `<tensor of size n>` when `n > 10`; the data part of every tensor of
rank at least 2 is `<tensor of size N>` with `N = size()`.  The whole text is
`JTensor(shape=[...], dtype=INT64, data=` followed by the data part and `)`. -/
theorem print_spec (fmt_double : Float → String) (os : String) (d s : List Int)
    (t : Fallback.JTensor) (ht : Fallback.JTensor.from_data_long_long d s = .ok t)
    (hrank : t.rank = 1) (hlen : (d.length : Int) ≤ LLONG_MAX) (hs : ∀ k ∈ s, is_int64 k) :
    (d.length ≤ 10 →
      t.print_data fmt_double os
        = .ok (os ++ "[" ++ ", ".intercalate (d.map (fun (v : Int) => toString v)) ++ "]") ∧
      t.print fmt_double os
        = .ok (os ++ "JTensor(shape=[" ++ toString (d.length : Int) ++ "], dtype=" ++ "INT64"
            ++ ", data="
            ++ ("[" ++ ", ".intercalate (d.map (fun (v : Int) => toString v)) ++ "]")
            ++ ")")) ∧
    (10 < d.length →
      t.print_data fmt_double os
        = .ok (os ++ "<tensor of size " ++ toString d.length ++ ">") ∧
      t.print fmt_double os
        = .ok (os ++ "JTensor(shape=[" ++ toString (d.length : Int) ++ "], dtype=" ++ "INT64"
            ++ ", data=" ++ ("<tensor of size " ++ toString d.length ++ ">") ++ ")")) ∧
    ∀ t2 : Fallback.JTensor, 2 ≤ t2.rank →
      t2.print_data fmt_double os
        = .ok (os ++ "<tensor of size " ++ toString t2.size ++ ">") := by
  obtain ⟨hdt, hdata, _, hinit⟩ := fallback_from_data_long_long_ok d s t ht
  have hshape : t.m_shape = [(d.length : Int)] :=
    init_shape_rank_one d.length s t.m_shape hinit hrank hlen hs
  have hsize : t.size = d.length := by
    rw [fallback_size_eq, hshape, List.prod_singleton]
    unfold LLONG_MAX at hlen
    omega
  have hinter : ", ".intercalate (t.m_shape.map (fun (k : Int) => toString k))
      = toString (d.length : Int) := by
    rw [hshape]
    rfl
  refine ⟨?_, ?_, ?_⟩
  · intro hsmall
    have hcond : (d.length : Int) ≤ 10 := by omega
    have hdata_part : ∀ os2 : String, t.print_data fmt_double os2
        = .ok (os2 ++ ("[" ++ ", ".intercalate (d.map (fun (v : Int) => toString v)) ++ "]")) := by
      intro os2
      unfold Fallback.JTensor.print_data
      simp [hshape, hdt, hcond, Fallback.JTensor.get_flat_long_long, hdata, print_loop_zero,
        String.append_assoc]
    refine ⟨?_, ?_⟩
    · rw [hdata_part, ← String.append_assoc, ← String.append_assoc]
    · rw [print_eq fmt_double t os _ hdt hdata_part, hinter]
  · intro hlarge
    have hcond : ¬ (t.m_shape.length = 1 ∧ t.m_shape.headD 0 ≤ 10) := by
      rw [hshape]
      simp only [List.length_singleton, List.headD_cons, true_and, not_le]
      omega
    have hne : t.m_shape ≠ [] := by rw [hshape]; simp
    have hdata_part : ∀ os2 : String, t.print_data fmt_double os2
        = .ok (os2 ++ ("<tensor of size " ++ toString d.length ++ ">")) := by
      intro os2
      rw [print_data_large fmt_double t os2 hne hcond, hsize]
      simp only [String.append_assoc]
    refine ⟨?_, ?_⟩
    · rw [hdata_part, ← String.append_assoc, ← String.append_assoc]
    · rw [print_eq fmt_double t os _ hdt hdata_part, hinter]
  · intro t2 h2
    have hne : t2.m_shape ≠ [] := by
      intro h
      unfold Fallback.JTensor.rank at h2
      rw [h] at h2
      exact absurd h2 (by decide)
    have hcond : ¬ (t2.m_shape.length = 1 ∧ t2.m_shape.headD 0 ≤ 10) := by
      unfold Fallback.JTensor.rank at h2
      intro h
      omega
    exact print_data_large fmt_double t2 os hne hcond

/-- The statement of C20 at the tensor built from the eleven elements `0..10`
with shape `[11]`, an empty stream and a `double` format that is not used. -/
theorem print_spec_witness :
    Fallback.JTensor.from_data_long_long [0, 1, 2, 3, 4, 5, 6, 7, 8, 9, 10] [11] = .ok
        { m_shape := [11], m_dtype := DataType.INT64, m_float_data := [],
          m_int_data := [0, 1, 2, 3, 4, 5, 6, 7, 8, 9, 10], m_string_data := [] } ∧
    Fallback.JTensor.rank
        { m_shape := [11], m_dtype := DataType.INT64, m_float_data := [],
          m_int_data := [0, 1, 2, 3, 4, 5, 6, 7, 8, 9, 10], m_string_data := [] } = 1 ∧
    (((([0, 1, 2, 3, 4, 5, 6, 7, 8, 9, 10] : List Int).length) : Nat) : Int) ≤ LLONG_MAX ∧
    (∀ k ∈ ([11] : List Int), is_int64 k) ∧
    (((([0, 1, 2, 3, 4, 5, 6, 7, 8, 9, 10] : List Int).length) ≤ 10 →
      Fallback.JTensor.print_data (fun _ => "")
        { m_shape := [11], m_dtype := DataType.INT64, m_float_data := [],
          m_int_data := [0, 1, 2, 3, 4, 5, 6, 7, 8, 9, 10], m_string_data := [] } ""
        = .ok ("" ++ "[" ++ ", ".intercalate
            (([0, 1, 2, 3, 4, 5, 6, 7, 8, 9, 10] : List Int).map (fun (v : Int) => toString v)) ++ "]") ∧
      Fallback.JTensor.print (fun _ => "")
        { m_shape := [11], m_dtype := DataType.INT64, m_float_data := [],
          m_int_data := [0, 1, 2, 3, 4, 5, 6, 7, 8, 9, 10], m_string_data := [] } ""
        = .ok ("" ++ "JTensor(shape=[" ++ toString (((([0, 1, 2, 3, 4, 5, 6, 7, 8, 9, 10] : List Int).length) : Nat) : Int) ++ "], dtype=" ++ "INT64"
            ++ ", data="
            ++ ("[" ++ ", ".intercalate
                (([0, 1, 2, 3, 4, 5, 6, 7, 8, 9, 10] : List Int).map (fun (v : Int) => toString v)) ++ "]")
            ++ ")")) ∧
    (10 < (([0, 1, 2, 3, 4, 5, 6, 7, 8, 9, 10] : List Int).length) →
      Fallback.JTensor.print_data (fun _ => "")
        { m_shape := [11], m_dtype := DataType.INT64, m_float_data := [],
          m_int_data := [0, 1, 2, 3, 4, 5, 6, 7, 8, 9, 10], m_string_data := [] } ""
        = .ok ("" ++ "<tensor of size " ++ toString (([0, 1, 2, 3, 4, 5, 6, 7, 8, 9, 10] : List Int).length) ++ ">") ∧
      Fallback.JTensor.print (fun _ => "")
        { m_shape := [11], m_dtype := DataType.INT64, m_float_data := [],
          m_int_data := [0, 1, 2, 3, 4, 5, 6, 7, 8, 9, 10], m_string_data := [] } ""
        = .ok ("" ++ "JTensor(shape=[" ++ toString (((([0, 1, 2, 3, 4, 5, 6, 7, 8, 9, 10] : List Int).length) : Nat) : Int) ++ "], dtype=" ++ "INT64"
            ++ ", data=" ++ ("<tensor of size " ++ toString (([0, 1, 2, 3, 4, 5, 6, 7, 8, 9, 10] : List Int).length) ++ ">") ++ ")")) ∧
    ∀ t2 : Fallback.JTensor, 2 ≤ t2.rank →
      t2.print_data (fun _ => "") ""
        = .ok ("" ++ "<tensor of size " ++ toString t2.size ++ ">")) :=
  ⟨rfl, rfl, by decide, by decide,
    print_spec (fun _ => "") "" [0, 1, 2, 3, 4, 5, 6, 7, 8, 9, 10] [11] _ rfl rfl (by decide) (by decide)⟩

/-- The text written for the rank-1 tensor of the eleven elements `0..10`. -/
theorem print_eleven_elements :
    Fallback.JTensor.print (fun _ => "")
        { m_shape := [11], m_dtype := DataType.INT64, m_float_data := [],
          m_int_data := [0, 1, 2, 3, 4, 5, 6, 7, 8, 9, 10], m_string_data := [] } ""
      = .ok "JTensor(shape=[11], dtype=INT64, data=<tensor of size 11>)" := rfl

/-- The text written for the rank-1 tensor of the ten elements `0..9`. -/
theorem print_ten_elements :
    Fallback.JTensor.print (fun _ => "")
        { m_shape := [10], m_dtype := DataType.INT64, m_float_data := [],
          m_int_data := [0, 1, 2, 3, 4, 5, 6, 7, 8, 9], m_string_data := [] } ""
      = .ok "JTensor(shape=[10], dtype=INT64, data=[0, 1, 2, 3, 4, 5, 6, 7, 8, 9])" := rfl

end JInterpreter
